import Mathlib

/-
Verification of the ads-bby aircraft tracker core: a shallow embedding of the
fusion-store merge (`HybridAPI._merge_osky_states`), the local-feed ingestor
(`DumpSlurp._process_message`, `DumpSlurp._expire_old_aircraft`), the country
resolver (`DumpSlurp.get_country_from_icao24`), the quiet-hours gate, the
enrichment client (`HybridAPI._enrich_with_flightaware`) and the enrichment
queue (`HybridAPI.request_enrich`), together with theorems settling the
frozen specification claims.

Modelling conventions:
- Python dicts become association lists (`List (String × α)`): insertion
  order is preserved, value replacement keeps position, fresh keys append.
- Machine floats become exact rationals (`ℚ`); no claim depends on rounding.
- Unix timestamps become `Int`; the local timezone used by
  `datetime.timestamp()` is a fixed-offset parameter.
- Network I/O (the FlightAware HTTP call, the type-database service) becomes
  an oracle function passed as a parameter; `none` models a transport error.
- String helpers are re-implemented structurally over `List Char` so that
  concrete runs reduce inside the kernel; they agree with the Python string
  methods on the ASCII data this protocol carries.
-/

namespace AdsBby

/-! ## String helpers (structural re-implementations of the Python methods) -/

/-- Helper for `splitOnChar`: accumulates the current chunk (reversed). -/
def splitOnAux (sep : Char) : List Char → List Char → List (List Char)
  | [], acc => [acc.reverse]
  | c :: cs, acc =>
    if c = sep then acc.reverse :: splitOnAux sep cs []
    else splitOnAux sep cs (c :: acc)

/-- Python `str.split(sep)` for a one-character separator (the source only
splits on `","`, `"/"`, `":"` and `"."`). -/
def splitOnChar (sep : Char) (s : String) : List String :=
  (splitOnAux sep s.data []).map List.asString

/-- Python `str.strip()`: remove leading and trailing whitespace. -/
def trimStr (s : String) : String :=
  (((s.data.dropWhile Char.isWhitespace).reverse.dropWhile Char.isWhitespace).reverse).asString

/-- Python `str.lower()` (ASCII; hex identifiers are ASCII). -/
def toLowerStr (s : String) : String := (s.data.map Char.toLower).asString

/-- Python `str.upper()` (ASCII; hex identifiers are ASCII). -/
def toUpperStr (s : String) : String := (s.data.map Char.toUpper).asString

/-- Python `str.replace(" ", "")` as used on icao24 addresses. -/
def removeSpaces (s : String) : String := (s.data.filter (fun c => c ≠ ' ')).asString

/-- Python `s[:n]`. -/
def takeStr (n : Nat) (s : String) : String := (s.data.take n).asString

/-- Python `str.ljust(n, '0')`: right-pad with zeros up to length `n`. -/
def ljustZero (n : Nat) (s : String) : String :=
  (s.data ++ List.replicate (n - s.data.length) '0').asString

/-- Length of a string in characters. -/
def strLen (s : String) : Nat := s.data.length

/-- Test whether the first list is an initial segment of the second. -/
def isPrefixList : List Char → List Char → Bool
  | [], _ => true
  | _ :: _, [] => false
  | a :: as, b :: bs => a == b && isPrefixList as bs

/-- Test whether the first list occurs contiguously inside the second. -/
def isInfixList (needle : List Char) : List Char → Bool
  | [] => isPrefixList needle []
  | c :: cs => isPrefixList needle (c :: cs) || isInfixList needle cs

/-- Python `needle in haystack` substring test (used for `"En Route"`). -/
def containsSub (needle haystack : String) : Bool :=
  isInfixList needle.data haystack.data

/-! ## Numeric parsing -/

/-- Value of one hexadecimal digit, or `none` (48–57 are the codes of
`0`–`9`, 65–70 of `A`–`F`, 97–102 of `a`–`f`). -/
def hexDigitVal? (c : Char) : Option Nat :=
  let n := c.toNat
  if 48 ≤ n ∧ n ≤ 57 then some (n - 48)
  else if 65 ≤ n ∧ n ≤ 70 then some (n - 55)
  else if 97 ≤ n ∧ n ≤ 102 then some (n - 87)
  else none

/-- Python `int(s, 16)` on a plain string of hexadecimal digits; other forms
accepted by `int` (signs, underscores, a `0x` marker) never survive the
source's normalisation of a 6-character address and are mapped to `none`,
matching the `except ValueError: return None` at the only call site. -/
def hexVal? (s : String) : Option Nat :=
  if s.data.isEmpty then none
  else s.data.foldl
    (fun acc c => acc.bind fun n => (hexDigitVal? c).map fun d => n * 16 + d)
    (some 0)

/-- Total hex value of a digits-only literal (used for the static range table,
whose entries are all valid hex). -/
def hexVal (s : String) : Nat :=
  s.data.foldl (fun n c => n * 16 + ((hexDigitVal? c).getD 0)) 0

/-- Value of a string of decimal digits (assumes digits). -/
def decDigitsVal (cs : List Char) : Nat :=
  cs.foldl (fun n c => n * 10 + (c.toNat - '0'.toNat)) 0

/-- Python `int(s)`-style parse of a non-empty all-digits string. -/
def decVal? (s : String) : Option Nat :=
  if s.data ≠ [] ∧ s.data.all Char.isDigit then some (decDigitsVal s.data) else none

/-- Python `float(value)` restricted to the decimal forms the feed emits
(`DumpSlurp._parse_float` after `strip`): optional sign, digits with an
optional decimal point.  Values are exact rationals; exponent/`inf`/`nan`
spellings do not occur in the CSV feed and are mapped to `none`. -/
def parse_float (s : String) : Option ℚ :=
  let v := trimStr s
  if v.data = [] then none
  else
    let (sign, body) : ℚ × List Char :=
      match v.data with
      | '-' :: rest => (-1, rest)
      | '+' :: rest => (1, rest)
      | cs => (1, cs)
    match splitOnAux '.' body [] with
    | [ip] =>
      if ip ≠ [] ∧ ip.all Char.isDigit then some (sign * decDigitsVal ip) else none
    | [ip, fp] =>
      if (ip ≠ [] ∨ fp ≠ []) ∧ ip.all Char.isDigit ∧ fp.all Char.isDigit then
        some (sign * ((decDigitsVal ip : ℚ) + (decDigitsVal fp : ℚ) / (10 ^ fp.length)))
      else none
    | _ => none

/-! ## Calendar arithmetic for `DumpSlurp._parse_timestamp` -/

/-- Gregorian leap-year test. -/
def isLeapYear (y : Nat) : Bool := y % 4 == 0 && (y % 100 != 0 || y % 400 == 0)

/-- Days in the given month of the given year. -/
def daysInMonth (y m : Nat) : Nat :=
  if m = 2 then (if isLeapYear y then 29 else 28)
  else if m = 4 ∨ m = 6 ∨ m = 9 ∨ m = 11 then 30 else 31

/-- Cumulative days before month `m` in a non-leap year (index 1–12). -/
def daysBeforeMonth (m : Nat) : Nat :=
  [0, 0, 31, 59, 90, 120, 151, 181, 212, 243, 273, 304, 334].getD m 0

/-- Days in all years before year `y` (proleptic Gregorian, year 1 onward). -/
def daysBeforeYear (y : Nat) : Nat :=
  (y - 1) * 365 + (y - 1) / 4 - (y - 1) / 100 + (y - 1) / 400

/-- Days since the Unix epoch of the civil date `y-m-d`
(719162 is the day count of 1970-01-01 from year 1). -/
def epochDays (y m d : Nat) : Int :=
  ((daysBeforeYear y + daysBeforeMonth m
    + (if 2 < m ∧ isLeapYear y then 1 else 0) + (d - 1) : Nat) : Int) - 719162

/-- Parse `YYYY/MM/DD` with `strptime`-faithful validation (1–4 digit year,
1–2 digit month/day, calendar-valid day). -/
def parse_date? (s : String) : Option (Nat × Nat × Nat) :=
  match splitOnChar '/' s with
  | [ys, ms, ds] =>
    match decVal? ys, decVal? ms, decVal? ds with
    | some y, some m, some d =>
      if 1 ≤ y ∧ strLen ys ≤ 4 ∧ strLen ms ≤ 2 ∧ strLen ds ≤ 2
          ∧ 1 ≤ m ∧ m ≤ 12 ∧ 1 ≤ d ∧ d ≤ daysInMonth y m
      then some (y, m, d) else none
    | _, _, _ => none
  | _ => none

/-- Parse the seconds component `SS` or `SS.ffffff` (milliseconds optional,
1–6 fractional digits; the fraction is validated then truncated away by the
source's `int(dt.timestamp())`). -/
def parse_seconds? (s : String) : Option Nat :=
  match splitOnChar '.' s with
  | [a] =>
    match decVal? a with
    | some v => if strLen a ≤ 2 ∧ v ≤ 59 then some v else none
    | none => none
  | [a, f] =>
    match decVal? a with
    | some v =>
      if strLen a ≤ 2 ∧ v ≤ 59 ∧ 1 ≤ strLen f ∧ strLen f ≤ 6 ∧ f.data.all Char.isDigit
      then some v else none
    | none => none
  | _ => none

/-- Parse `HH:MM:SS[.mmm]`. -/
def parse_time? (s : String) : Option (Nat × Nat × Nat) :=
  match splitOnChar ':' s with
  | [hs, ms, ss] =>
    match decVal? hs, decVal? ms, parse_seconds? ss with
    | some h, some mi, some se =>
      if strLen hs ≤ 2 ∧ strLen ms ≤ 2 ∧ h ≤ 23 ∧ mi ≤ 59 then some (h, mi, se) else none
    | _, _, _ => none
  | _ => none

/-- Timezone-naive Unix seconds of a `YYYY/MM/DD` + `HH:MM:SS[.mmm]` pair. -/
def parse_naive_timestamp? (date_str time_str : String) : Option Int :=
  match parse_date? date_str, parse_time? time_str with
  | some (y, m, d), some (hh, mi, ss) =>
    some (epochDays y m d * 86400 + ((hh * 3600 + mi * 60 + ss : Nat) : Int))
  | _, _ => none

/-- Embedding of `DumpSlurp._parse_timestamp`: empty components give `none`;
otherwise the naive local-time value shifted by the host timezone offset
`tzOff` (seconds east of UTC), modelling `datetime.timestamp()`'s use of
local time as a fixed offset. -/
def parse_timestamp (tzOff : Int) (date_str time_str : String) : Option Int :=
  if date_str.data = [] ∨ time_str.data = [] then none
  else (parse_naive_timestamp? date_str time_str).map (fun e => e - tzOff)

/-! ## Data model

`OpenSkyData` follows the dataclass in `src/bby/models/Aircraft.py`.
Modelled from the spec: the revision of that dataclass actually used by the
API code is not among the source files — the checked-in revision lacks the
`last_position`, `source` and `aircraft_type` attributes and the `merge`
method that `DumpSlurp._process_message` and `HybridAPI._merge_osky_states`
rely on; those are taken from §3 of the specification (`lastPosition`,
`sourceKind`, the type-resolver hint). -/

structure OpenSkyData where
  icao24 : String
  callsign : Option String := none
  origin_country : Option String := none
  last_position : Option Int := none
  last_contact : Int := 0
  longitude : Option ℚ := none
  latitude : Option ℚ := none
  geo_altitude : Option ℚ := none
  baro_altitude : Option ℚ := none
  on_ground : Bool := false
  velocity : Option ℚ := none
  true_track : Option ℚ := none
  vertical_rate : Option ℚ := none
  squawk : Option String := none
  spi : Bool := false
  sensors : List Int := []
  position_source : Int := 0
  category : Int := 0
  source : Int := 0
  aircraft_type : Option String := none
deriving DecidableEq, Repr

/-- Supplemental data from FlightAware (`FlightAwareData` in
`src/bby/models/Aircraft.py`); the two `datetime` fields are carried as their
normalised ISO strings, since no claim inspects their calendar value. -/
structure FlightAwareData where
  airline : Option String := none
  flight_number : Option String := none
  aircraft_type : Option String := none
  origin_airport : Option String := none
  destination_airport : Option String := none
  estimated_arrival_time : Option String := none
  departure_time : Option String := none
deriving DecidableEq, Repr

/-- One tracked aircraft (`Aircraft` in `src/bby/models/Aircraft.py`). -/
structure Aircraft where
  opensky : OpenSkyData
  flightaware : Option FlightAwareData := none
deriving DecidableEq, Repr

/-- The all-`None` `FlightAwareData()` marker written before network I/O. -/
def empty_fa : FlightAwareData := {}

/-! ## Association-list maps (Python dict) -/

/-- First value stored under `k`. -/
def lookupA {α : Type} (tbl : List (String × α)) (k : String) : Option α :=
  (tbl.find? (fun e => decide (e.1 = k))).map (fun e => e.2)

/-- Replace the value stored under `k`, keeping position. -/
def updateA {α : Type} (tbl : List (String × α)) (k : String) (v : α) : List (String × α) :=
  tbl.map (fun e => if e.1 = k then (e.1, v) else e)

/-- Keys of the table, in order. -/
def keysA {α : Type} (tbl : List (String × α)) : List String := tbl.map Prod.fst

/-! ## Country resolver (`DumpSlurp.get_country_from_icao24`) -/

/-- ICAO24 address allocation ranges, `(start_hex, end_hex, code, name)`,
transcribed from `ICAO24_RANGES` in `src/bby/api/DumpSlurp.py`. -/
def ICAO24_RANGES : List (String × String × String × String) := [
  ("000000", "003FFF", "", "Unallocated"),
  ("004000", "0043FF", "ZW", "Zimbabwe"),
  ("006000", "006FFF", "MZ", "Mozambique"),
  ("008000", "00FFFF", "ZA", "South Africa"),
  ("010000", "017FFF", "EG", "Egypt"),
  ("018000", "01FFFF", "LY", "Libya"),
  ("020000", "027FFF", "MA", "Morocco"),
  ("028000", "02FFFF", "TN", "Tunisia"),
  ("030000", "0303FF", "BW", "Botswana"),
  ("032000", "032FFF", "BI", "Burundi"),
  ("034000", "034FFF", "CM", "Cameroon"),
  ("035000", "0353FF", "KM", "Comoros"),
  ("036000", "036FFF", "CG", "Congo"),
  ("038000", "038FFF", "CI", "Côte d\x27Ivoire"),
  ("03E000", "03EFFF", "GA", "Gabon"),
  ("040000", "040FFF", "ET", "Ethiopia"),
  ("042000", "042FFF", "GQ", "Equatorial Guinea"),
  ("044000", "044FFF", "GH", "Ghana"),
  ("046000", "046FFF", "GN", "Guinea"),
  ("048000", "0483FF", "GW", "Guinea-Bissau"),
  ("04A000", "04A3FF", "LS", "Lesotho"),
  ("04C000", "04CFFF", "KE", "Kenya"),
  ("050000", "050FFF", "LR", "Liberia"),
  ("054000", "054FFF", "MG", "Madagascar"),
  ("058000", "058FFF", "MW", "Malawi"),
  ("05A000", "05A3FF", "MV", "Maldives"),
  ("05C000", "05CFFF", "ML", "Mali"),
  ("05E000", "05E3FF", "MR", "Mauritania"),
  ("060000", "0603FF", "MU", "Mauritius"),
  ("062000", "062FFF", "NE", "Niger"),
  ("064000", "064FFF", "NG", "Nigeria"),
  ("068000", "068FFF", "UG", "Uganda"),
  ("06A000", "06A3FF", "QA", "Qatar"),
  ("06C000", "06CFFF", "CF", "Central African Republic"),
  ("06E000", "06EFFF", "RW", "Rwanda"),
  ("070000", "070FFF", "SN", "Senegal"),
  ("074000", "0743FF", "SC", "Seychelles"),
  ("076000", "0763FF", "SL", "Sierra Leone"),
  ("078000", "078FFF", "SO", "Somalia"),
  ("07A000", "07A3FF", "SZ", "Eswatini"),
  ("07C000", "07CFFF", "SD", "Sudan"),
  ("080000", "080FFF", "TZ", "Tanzania"),
  ("084000", "084FFF", "TD", "Chad"),
  ("088000", "088FFF", "TG", "Togo"),
  ("08A000", "08AFFF", "ZM", "Zambia"),
  ("08C000", "08CFFF", "CD", "DR Congo"),
  ("090000", "090FFF", "AO", "Angola"),
  ("094000", "0943FF", "BJ", "Benin"),
  ("096000", "0963FF", "CV", "Cape Verde"),
  ("098000", "0983FF", "DJ", "Djibouti"),
  ("09A000", "09AFFF", "GM", "Gambia"),
  ("09C000", "09CFFF", "BF", "Burkina Faso"),
  ("09E000", "09E3FF", "ST", "São Tomé"),
  ("0A0000", "0A7FFF", "DZ", "Algeria"),
  ("0A8000", "0A8FFF", "BS", "Bahamas"),
  ("0AA000", "0AA3FF", "BB", "Barbados"),
  ("0AB000", "0AB3FF", "BZ", "Belize"),
  ("0AC000", "0ACFFF", "CO", "Colombia"),
  ("0AE000", "0AEFFF", "CR", "Costa Rica"),
  ("0B0000", "0B0FFF", "CU", "Cuba"),
  ("0B2000", "0B2FFF", "SV", "El Salvador"),
  ("0B4000", "0B4FFF", "GT", "Guatemala"),
  ("0B6000", "0B6FFF", "GY", "Guyana"),
  ("0B8000", "0B8FFF", "HT", "Haiti"),
  ("0BA000", "0BAFFF", "HN", "Honduras"),
  ("0BC000", "0BC3FF", "VC", "St. Vincent & Grenadines"),
  ("0BE000", "0BEFFF", "JM", "Jamaica"),
  ("0C0000", "0C0FFF", "NI", "Nicaragua"),
  ("0C2000", "0C2FFF", "PA", "Panama"),
  ("0C4000", "0C4FFF", "DO", "Dominican Republic"),
  ("0C6000", "0C6FFF", "TT", "Trinidad and Tobago"),
  ("0C8000", "0C8FFF", "SR", "Suriname"),
  ("0CA000", "0CA3FF", "AG", "Antigua & Barbuda"),
  ("0CC000", "0CC3FF", "GD", "Grenada"),
  ("0D0000", "0D7FFF", "MX", "Mexico"),
  ("0D8000", "0DFFFF", "VE", "Venezuela"),
  ("100000", "1FFFFF", "RU", "Russia"),
  ("201000", "2013FF", "NA", "Namibia"),
  ("202000", "2023FF", "ER", "Eritrea"),
  ("300000", "33FFFF", "IT", "Italy"),
  ("340000", "37FFFF", "ES", "Spain"),
  ("380000", "3BFFFF", "FR", "France"),
  ("3C0000", "3FFFFF", "DE", "Germany"),
  ("400000", "43FFFF", "GB", "United Kingdom"),
  ("440000", "447FFF", "AT", "Austria"),
  ("448000", "44FFFF", "BE", "Belgium"),
  ("450000", "457FFF", "BG", "Bulgaria"),
  ("458000", "45FFFF", "DK", "Denmark"),
  ("460000", "467FFF", "FI", "Finland"),
  ("468000", "46FFFF", "GR", "Greece"),
  ("470000", "477FFF", "HU", "Hungary"),
  ("478000", "47FFFF", "NO", "Norway"),
  ("480000", "487FFF", "NL", "Netherlands"),
  ("488000", "48FFFF", "PL", "Poland"),
  ("490000", "497FFF", "PT", "Portugal"),
  ("498000", "49FFFF", "CZ", "Czech Republic"),
  ("4A0000", "4A7FFF", "RO", "Romania"),
  ("4A8000", "4AFFFF", "SE", "Sweden"),
  ("4B0000", "4B7FFF", "CH", "Switzerland"),
  ("4B8000", "4BFFFF", "TR", "Turkey"),
  ("4C0000", "4C7FFF", "YU", "Yugoslavia"),
  ("4C8000", "4C83FF", "CY", "Cyprus"),
  ("4CA000", "4CAFFF", "IE", "Ireland"),
  ("4CC000", "4CCFFF", "IS", "Iceland"),
  ("4D0000", "4D03FF", "LU", "Luxembourg"),
  ("4D2000", "4D23FF", "MT", "Malta"),
  ("4D4000", "4D43FF", "MC", "Monaco"),
  ("500000", "5003FF", "SM", "San Marino"),
  ("501000", "5013FF", "AL", "Albania"),
  ("501C00", "501FFF", "HR", "Croatia"),
  ("502C00", "502FFF", "LV", "Latvia"),
  ("503C00", "503FFF", "LT", "Lithuania"),
  ("504C00", "504FFF", "MD", "Moldova"),
  ("505C00", "505FFF", "SK", "Slovakia"),
  ("506C00", "506FFF", "SI", "Slovenia"),
  ("507C00", "507FFF", "UZ", "Uzbekistan"),
  ("508000", "50FFFF", "UA", "Ukraine"),
  ("510000", "5103FF", "BY", "Belarus"),
  ("511000", "5113FF", "EE", "Estonia"),
  ("512000", "5123FF", "MK", "North Macedonia"),
  ("513000", "5133FF", "BA", "Bosnia & Herzegovina"),
  ("514000", "5143FF", "GE", "Georgia"),
  ("515000", "5153FF", "TJ", "Tajikistan"),
  ("600000", "6003FF", "AM", "Armenia"),
  ("600800", "600BFF", "AZ", "Azerbaijan"),
  ("601000", "6013FF", "KG", "Kyrgyzstan"),
  ("601800", "601BFF", "TM", "Turkmenistan"),
  ("680000", "6803FF", "BT", "Bhutan"),
  ("681000", "6813FF", "FM", "Micronesia"),
  ("682000", "6823FF", "MN", "Mongolia"),
  ("683000", "6833FF", "KZ", "Kazakhstan"),
  ("684000", "6843FF", "PW", "Palau"),
  ("700000", "700FFF", "AF", "Afghanistan"),
  ("702000", "702FFF", "BD", "Bangladesh"),
  ("704000", "704FFF", "MM", "Myanmar"),
  ("706000", "706FFF", "KW", "Kuwait"),
  ("708000", "708FFF", "LA", "Laos"),
  ("70A000", "70AFFF", "NP", "Nepal"),
  ("70C000", "70C3FF", "OM", "Oman"),
  ("70E000", "70EFFF", "KH", "Cambodia"),
  ("710000", "717FFF", "SA", "Saudi Arabia"),
  ("718000", "71FFFF", "KR", "South Korea"),
  ("720000", "727FFF", "KP", "North Korea"),
  ("728000", "72FFFF", "IQ", "Iraq"),
  ("730000", "737FFF", "IR", "Iran"),
  ("738000", "73FFFF", "IL", "Israel"),
  ("740000", "747FFF", "JO", "Jordan"),
  ("748000", "74FFFF", "LB", "Lebanon"),
  ("750000", "757FFF", "MY", "Malaysia"),
  ("758000", "75FFFF", "PH", "Philippines"),
  ("760000", "767FFF", "PK", "Pakistan"),
  ("768000", "76FFFF", "SG", "Singapore"),
  ("770000", "777FFF", "LK", "Sri Lanka"),
  ("778000", "77FFFF", "SY", "Syria"),
  ("780000", "7BFFFF", "CN", "China"),
  ("7C0000", "7FFFFF", "AU", "Australia"),
  ("800000", "83FFFF", "IN", "India"),
  ("840000", "87FFFF", "JP", "Japan"),
  ("880000", "887FFF", "TH", "Thailand"),
  ("888000", "88FFFF", "VN", "Vietnam"),
  ("890000", "890FFF", "YE", "Yemen"),
  ("894000", "894FFF", "BH", "Bahrain"),
  ("895000", "8953FF", "BN", "Brunei"),
  ("896000", "896FFF", "AE", "United Arab Emirates"),
  ("897000", "8973FF", "SB", "Solomon Islands"),
  ("898000", "898FFF", "PG", "Papua New Guinea"),
  ("899000", "8993FF", "TW", "Taiwan"),
  ("8A0000", "8A7FFF", "ID", "Indonesia"),
  ("900000", "9003FF", "MH", "Marshall Islands"),
  ("901000", "9013FF", "CK", "Cook Islands"),
  ("902000", "9023FF", "WS", "Samoa"),
  ("A00000", "AFFFFF", "US", "United States"),
  ("C00000", "C3FFFF", "CA", "Canada"),
  ("C80000", "C87FFF", "NZ", "New Zealand"),
  ("C88000", "C88FFF", "FJ", "Fiji"),
  ("C8A000", "C8A3FF", "NR", "Nauru"),
  ("C8C000", "C8C3FF", "LC", "Saint Lucia"),
  ("C8D000", "C8D3FF", "TO", "Tonga"),
  ("C8E000", "C8E3FF", "KI", "Kiribati"),
  ("C90000", "C903FF", "VU", "Vanuatu"),
  ("E00000", "E3FFFF", "AR", "Argentina"),
  ("E40000", "E7FFFF", "BR", "Brazil"),
  ("E80000", "E80FFF", "CL", "Chile"),
  ("E84000", "E84FFF", "EC", "Ecuador"),
  ("E88000", "E88FFF", "PY", "Paraguay"),
  ("E8C000", "E8CFFF", "PE", "Peru"),
  ("E90000", "E90FFF", "UY", "Uruguay"),
  ("E94000", "E94FFF", "BO", "Bolivia"),
  ("F00000", "F07FFF", "ICAO", "ICAO"),
  ("F09000", "F093FF", "ICAO", "ICAO")]

/-- Scan of the range table for the first range containing `v`
(the loop body of `get_country_from_icao24`). -/
def icao_range_lookup (v : Nat) : Option String :=
  (ICAO24_RANGES.find? fun r => decide (hexVal r.1 ≤ v ∧ v ≤ hexVal r.2.1)).map
    (fun r => r.2.2.2)

/-- Embedding of `DumpSlurp.get_country_from_icao24`: normalise (strip,
upper-case, drop spaces, right-pad to 6 with `'0'`), parse the first six
characters as hex, and scan the range table in order. -/
def get_country_from_icao24 (icao24 : String) : Option String :=
  let icao := removeSpaces (toUpperStr (trimStr icao24))
  let icao := if strLen icao < 6 then ljustZero 6 icao else icao
  match hexVal? (takeStr 6 icao) with
  | none => none
  | some v => icao_range_lookup v

/-- Overwrite-if-carried: the `if value is not None: record.field = value`
pattern shared by the ingestor update and the merge helper. -/
def carriedOr {β : Type} (incoming old : Option β) : Option β :=
  match incoming with
  | some v => some v
  | none => old

/-! ## Local feed ingestor (`DumpSlurp`) -/

/-- Internal table of the local-feed ingestor (`DumpSlurp.aircraft`). -/
structure SlurpState where
  aircraft : List (String × OpenSkyData) := []
deriving DecidableEq, Repr

/-- Result of the parsing phase of `DumpSlurp._process_message`
(lines 367–407): the per-message values, with `none` for fields the message
did not carry. -/
structure ParsedMsg where
  hex_ident : String
  logged_timestamp : Int
  callsign : Option String
  baro_altitude : Option ℚ
  velocity : Option ℚ
  track : Option ℚ
  lat : Option ℚ
  lon : Option ℚ
  vertical_rate_ms : Option ℚ
  squawk : Option String
  spi : Bool
  is_on_ground : Bool
deriving DecidableEq, Repr

/-- Parsing phase of `DumpSlurp._process_message`: split the CSV line, drop
rows with fewer than 22 fields or an empty hex id, parse the logged
timestamp (falling back to wall-clock `nowTs`), parse the optional fields
and apply the unit conversions (ft→m, kt→m/s, ft/min→m/s). -/
def parse_msg (tzOff nowTs : Int) (line : String) : Option ParsedMsg :=
  let fields := splitOnChar ',' line
  if fields.length < 22 then none
  else
    let hex_ident := toLowerStr (trimStr (fields.getD 4 ""))
    if hex_ident.data = [] then none
    else
      let logged_date := trimStr (fields.getD 8 "")
      let logged_time := trimStr (fields.getD 9 "")
      let logged_timestamp := (parse_timestamp tzOff logged_date logged_time).getD nowTs
      let cs := trimStr (fields.getD 10 "")
      let altitude := parse_float (fields.getD 11 "")
      let ground_speed := parse_float (fields.getD 12 "")
      let track := parse_float (fields.getD 13 "")
      let lat := parse_float (fields.getD 14 "")
      let lon := parse_float (fields.getD 15 "")
      let vertical_rate := parse_float (fields.getD 16 "")
      let sq := trimStr (fields.getD 17 "")
      some {
        hex_ident := hex_ident
        logged_timestamp := logged_timestamp
        callsign := if cs.data = [] then none else some cs
        baro_altitude := altitude.map (fun a => a / (328084 / 100000 : ℚ))
        velocity := ground_speed.map (fun g => g / (194384 / 100000 : ℚ))
        track := track
        lat := lat
        lon := lon
        vertical_rate_ms := vertical_rate.map (fun v => v / (19685 / 100 : ℚ))
        squawk := if sq.data = [] then none else some sq
        spi := trimStr (fields.getD 20 "") = "1"
        is_on_ground := trimStr (fields.getD 21 "") = "1" }

/-- Update phase of `DumpSlurp._process_message` (lines 409–446): get or
create the record (creation resolves country and aircraft type, the latter
through the `typeOf` oracle standing for the type-database service), always
advance `last_contact`, overwrite exactly the carried fields, always
overwrite `spi`/`on_ground`, and advance `last_position` when both
coordinates are present. -/
def apply_msg (typeOf : String → Option String) (st : SlurpState) (p : ParsedMsg) :
    SlurpState :=
  let existing := lookupA st.aircraft p.hex_ident
  let r0 : OpenSkyData :=
    match existing with
    | some a => a
    | none =>
      { icao24 := p.hex_ident
        source := 1
        origin_country := get_country_from_icao24 p.hex_ident
        aircraft_type := typeOf p.hex_ident }
  let r : OpenSkyData :=
    { r0 with
      last_contact := p.logged_timestamp
      callsign := carriedOr p.callsign r0.callsign
      baro_altitude := carriedOr p.baro_altitude r0.baro_altitude
      velocity := carriedOr p.velocity r0.velocity
      true_track := carriedOr p.track r0.true_track
      latitude := carriedOr p.lat r0.latitude
      longitude := carriedOr p.lon r0.longitude
      vertical_rate := carriedOr p.vertical_rate_ms r0.vertical_rate
      squawk := carriedOr p.squawk r0.squawk
      spi := p.spi
      on_ground := p.is_on_ground
      last_position :=
        if p.lat.isSome ∧ p.lon.isSome then some p.logged_timestamp else r0.last_position }
  { st with aircraft :=
      match existing with
      | some _ => updateA st.aircraft p.hex_ident r
      | none => st.aircraft ++ [(p.hex_ident, r)] }

/-- Embedding of `DumpSlurp._process_message`: parse, then update; a row that
fails the length or hex-id guard leaves the state unchanged. -/
def process_message (typeOf : String → Option String) (tzOff nowTs : Int)
    (st : SlurpState) (line : String) : SlurpState :=
  match parse_msg tzOff nowTs line with
  | none => st
  | some p => apply_msg typeOf st p

/-- Embedding of `DumpSlurp._expire_old_aircraft`: drop every record whose
`last_contact` is more than `expire_seconds` behind `current_time`. -/
def expire_old_aircraft (expire_seconds current_time : Int) (st : SlurpState) : SlurpState :=
  { st with aircraft :=
      st.aircraft.filter (fun e => decide (current_time - e.2.last_contact ≤ expire_seconds)) }

/-! ## Fusion store (`HybridAPI._merge_osky_states`) -/

/-- Modelled from the spec: the field-level merge helper `OpenSkyData.merge`
called at `Hybrid.py:206` is not among the source files (the checked-in
`Aircraft.py` has no `merge` method).  Per §4.5 the merge "takes all fields
the incoming state actually carries … and leaves everything else from the
existing record untouched", and per §4.3 the two boolean flags are always
overwritten; the identifier, timestamps and integer metadata are always
carried. -/
def OpenSkyData.merge (old incoming : OpenSkyData) : OpenSkyData :=
  { icao24 := incoming.icao24
    callsign := carriedOr incoming.callsign old.callsign
    origin_country := carriedOr incoming.origin_country old.origin_country
    last_position := carriedOr incoming.last_position old.last_position
    last_contact := incoming.last_contact
    longitude := carriedOr incoming.longitude old.longitude
    latitude := carriedOr incoming.latitude old.latitude
    geo_altitude := carriedOr incoming.geo_altitude old.geo_altitude
    baro_altitude := carriedOr incoming.baro_altitude old.baro_altitude
    on_ground := incoming.on_ground
    velocity := carriedOr incoming.velocity old.velocity
    true_track := carriedOr incoming.true_track old.true_track
    vertical_rate := carriedOr incoming.vertical_rate old.vertical_rate
    squawk := carriedOr incoming.squawk old.squawk
    spi := incoming.spi
    sensors := incoming.sensors
    position_source := incoming.position_source
    category := incoming.category
    source := incoming.source
    aircraft_type := carriedOr incoming.aircraft_type old.aircraft_type }

/-- Loop body of `HybridAPI._merge_osky_states` (lines 197–209): create the
record for a new id, or apply the incoming state through `merge` only when
its `last_contact` is strictly newer. -/
def merge_step (tbl : List (String × Aircraft)) (s : OpenSkyData) :
    List (String × Aircraft) :=
  match lookupA tbl s.icao24 with
  | some cur =>
    if s.last_contact > cur.opensky.last_contact then
      updateA tbl s.icao24 { cur with opensky := cur.opensky.merge s }
    else tbl
  | none => tbl ++ [(s.icao24, { opensky := s })]

/-- First phase of `HybridAPI._merge_osky_states`: fold the batch through
`merge_step`. -/
def merge_apply (states : List OpenSkyData) (tbl : List (String × Aircraft)) :
    List (String × Aircraft) :=
  states.foldl merge_step tbl

/-- Embedding of `HybridAPI._merge_osky_states` (lines 192–217): apply the
batch, then delete every record that is not among the batch ids and whose
`last_contact` is more than `expire_seconds` behind `now`. -/
def merge_osky_states (expire_seconds now : Int) (states : List OpenSkyData)
    (tbl : List (String × Aircraft)) : List (String × Aircraft) :=
  (merge_apply states tbl).filter
    (fun e => decide (e.1 ∈ states.map OpenSkyData.icao24)
      || decide (now - e.2.opensky.last_contact ≤ expire_seconds))

/-! ## Enrichment subsystem (`HybridAPI`) -/

/-- The configuration fields of `ApiConfig` (in `src/bby/models/BbyCfg.py`)
that the embedded operations read. -/
structure ApiConfig where
  flightaware_api_key : Option String := none
  quiet_start : Option Int := none
  quiet_end : Option Int := none
  aircraft_expire_seconds : Int := 900
  max_flightaware_requests_per_minute : Int := 10
deriving DecidableEq, Repr

/-- One flight leg of the FlightAware response body: the keys that
`_enrich_with_flightaware` and `_parse_fa_components_from_flight` read, with
`none` for an absent key (an absent or null `origin`/`destination` object is
folded into an absent code). -/
structure FAFlight where
  origin_code_iata : Option String := none
  destination_code_iata : Option String := none
  aircraft_type : Option String := none
  status : Option String := none
  operator_iata : Option String := none
  flight_number : Option String := none
  estimated_arrival : Option String := none
  actual_departure : Option String := none
deriving DecidableEq, Repr

/-- A FlightAware HTTP response: the status code and the decoded body
(`none` models `response.json()` returning `None`; the `flights` key is
already defaulted to `[]` by the source). -/
structure FAResponse where
  status_code : Int
  data : Option (List FAFlight) := none
deriving DecidableEq, Repr

/-- The mutable state of `HybridAPI` touched by the embedded operations:
the aircraft table, the callsign-keyed response cache, and the enrichment
queue. -/
structure HybridState where
  current_aircraft : List (String × Aircraft) := []
  fa_cache : List (String × FAResponse) := []
  fa_queue : List String := []
deriving DecidableEq, Repr

/-- Embedding of `HybridAPI._can_process_flightaware_request` (lines
265–278), with the wall-clock hour in the configured timezone passed in:
returns `true` when the enrichment network call is allowed. -/
def can_process_flightaware_request (quiet_start quiet_end : Option Int) (hour : Int) :
    Bool :=
  match quiet_start, quiet_end with
  | some s, some e =>
    if s > e then decide (s > hour ∧ hour ≥ e)
    else decide (s ≤ hour ∨ hour < e)
  | _, _ => true

/-- Python `value or default` on an optional string (empty string is falsy),
as used by `_parse_fa_components_from_flight`. -/
def orDefault (v default : Option String) : Option String :=
  match v with
  | some s => if s = "" then default else some s
  | none => default

/-- Embedding of `HybridAPI._parse_fa_components_from_flight`:
`(origin, destination, aircraft_type)` with absent or empty entries replaced
by `default`. -/
def parse_fa_components (f : FAFlight) (default : Option String) :
    Option String × Option String × Option String :=
  (orDefault f.origin_code_iata default,
   orDefault f.destination_code_iata default,
   orDefault f.aircraft_type default)

/-- The `"."`-joined component string computed per leg inside
`HybridAPI._can_cache_flightaware_request` (default `""`). -/
def fa_component_key (f : FAFlight) : String :=
  let c := parse_fa_components f (some "")
  (c.1.getD "") ++ "." ++ (c.2.1.getD "") ++ "." ++ (c.2.2.getD "")

/-- Embedding of `HybridAPI._can_cache_flightaware_request` (lines 302–309):
an empty list is never cacheable; otherwise every joined component string
must equal the first one. -/
def can_cache_flightaware_request (flights : List FAFlight) : Bool :=
  match flights with
  | [] => false
  | f0 :: rest => (f0 :: rest).all (fun x => fa_component_key x == fa_component_key f0)

/-- Embedding of `HybridAPI._parse_fa_datetime`, with the parsed `datetime`
represented by its normalised ISO string (no claim reads the calendar
value): falsy input gives `None`, otherwise `Z` becomes `+00:00`. -/
def parse_fa_datetime (dt_str : Option String) : Option String :=
  match dt_str with
  | none => none
  | some s =>
    if s = "" then none
    else some ((s.data.flatMap (fun c => if c = 'Z' then "+00:00".data else [c])).asString)

/-- Write a `flightaware` value onto the record stored under `k`
(the `self.current_aircraft[icao24].flightaware = …` assignments). -/
def set_flightaware (tbl : List (String × Aircraft)) (k : String)
    (v : Option FlightAwareData) : List (String × Aircraft) :=
  match lookupA tbl k with
  | some a => updateA tbl k { a with flightaware := v }
  | none => tbl

/-- Leg selection of `_enrich_with_flightaware` (lines 367–369): append an
empty leg, take the first whose status contains `"En Route"`, else the first
leg. -/
def fa_selected_flight (flights : List FAFlight) : FAFlight :=
  ((flights ++ [({} : FAFlight)]).find?
      (fun x => containsSub "En Route" (x.status.getD " "))).getD
    ((flights ++ [({} : FAFlight)]).headD {})

/-- The `FlightAwareData` built from the selected leg (lines 371–385). -/
def fa_data_of (flight : FAFlight) : FlightAwareData :=
  { airline := flight.operator_iata
    flight_number := flight.flight_number
    aircraft_type := (parse_fa_components flight none).2.2
    origin_airport := (parse_fa_components flight none).1
    destination_airport := (parse_fa_components flight none).2.1
    estimated_arrival_time := parse_fa_datetime (some (flight.estimated_arrival.getD ""))
    departure_time := parse_fa_datetime (some (flight.actual_departure.getD "")) }

/-- Embedding of `HybridAPI._enrich_with_flightaware` (lines 311–392).
`net` is the HTTP oracle (`none` models a transport error raising inside
`requests.get`; the exception is caught by the enclosing `try`, keeping all
state changes made before it).  `hour` is the wall-clock hour for the
quiet-hours gate.  Returns the new state and whether a network request was
issued. -/
def enrich_with_flightaware (cfg : ApiConfig) (net : String → Option FAResponse)
    (hour : Int) (st : HybridState) (icao24 : String) : HybridState × Bool :=
  match lookupA st.current_aircraft icao24 with
  | none => (st, false)
  | some aircraft =>
    match aircraft.opensky.callsign with
    | none => (st, false)
    | some cs0 =>
      if cs0 = "" then (st, false)
      else
        -- any attempt marks the aircraft as loaded, before any network I/O
        let st1 : HybridState :=
          { st with
              current_aircraft := set_flightaware st.current_aircraft icao24 (some empty_fa) }
        -- the quiet-hours bailout happens after the marker is written
        if ¬ can_process_flightaware_request cfg.quiet_start cfg.quiet_end hour then (st1, false)
        else
          let callsign := trimStr cs0
          let cached := lookupA st1.fa_cache callsign
          let response? : Option FAResponse :=
            match cached with
            | some r => some r
            | none => net callsign
          let requested := cached.isNone
          match response? with
          | none => (st1, requested)
          | some response =>
            if response.status_code ≠ 200 then (st1, requested)
            else
              match response.data with
              | none => (st1, requested)
              | some flights =>
                let st2 : HybridState :=
                  if cached.isNone ∧ can_cache_flightaware_request flights then
                    { st1 with fa_cache := st1.fa_cache ++ [(callsign, response)] }
                  else st1
                let fa_data := fa_data_of (fa_selected_flight flights)
                ({ st2 with
                    current_aircraft :=
                      set_flightaware st2.current_aircraft icao24 (some fa_data) },
                  requested)

/-- Embedding of `HybridAPI.request_enrich` (lines 122–130): with a truthy
API key, move (or add) the id to the back of the enrichment queue; with no
key configured, do nothing. -/
def request_enrich (cfg : ApiConfig) (st : HybridState) (icao24 : String) : HybridState :=
  match cfg.flightaware_api_key with
  | none => st
  | some key =>
    if key = "" then st
    else { st with fa_queue := st.fa_queue.erase icao24 ++ [icao24] }

/-! ## Lemmas about the association-list operations -/

theorem lookupA_nil {α : Type} (k : String) : lookupA ([] : List (String × α)) k = none := rfl

theorem lookupA_cons {α : Type} (k' : String) (v : α) (t : List (String × α)) (k : String) :
    lookupA ((k', v) :: t) k = if k' = k then some v else lookupA t k := by
  by_cases hk : k' = k <;> simp [lookupA, List.find?, hk]

theorem lookupA_append {α : Type} (t₁ t₂ : List (String × α)) (k : String) :
    lookupA (t₁ ++ t₂) k =
      match lookupA t₁ k with
      | some v => some v
      | none => lookupA t₂ k := by
  induction t₁ with
  | nil => simp [lookupA_nil]
  | cons e t ih =>
    obtain ⟨k', v⟩ := e
    rw [List.cons_append, lookupA_cons, lookupA_cons]
    by_cases hk : k' = k <;> simp [hk, ih]

theorem lookupA_updateA_self {α : Type} (t : List (String × α)) (k : String) (v : α)
    (h : (lookupA t k).isSome) : lookupA (updateA t k v) k = some v := by
  induction t with
  | nil => simp [lookupA_nil] at h
  | cons e t ih =>
    obtain ⟨k', w⟩ := e
    rw [lookupA_cons] at h
    by_cases hk : k' = k
    · simp [updateA, lookupA_cons, hk]
    · rw [if_neg hk] at h
      simpa [updateA, lookupA_cons, hk] using ih h

theorem updateA_cons {α : Type} (k0 : String) (w : α) (t : List (String × α)) (k : String)
    (v : α) :
    updateA ((k0, w) :: t) k v = (if k0 = k then (k0, v) else (k0, w)) :: updateA t k v := by
  by_cases hk : k0 = k <;> simp [updateA, hk]

theorem lookupA_updateA_ne {α : Type} (t : List (String × α)) (k k' : String) (v : α)
    (h : k' ≠ k) : lookupA (updateA t k v) k' = lookupA t k' := by
  induction t with
  | nil => rfl
  | cons e t ih =>
    obtain ⟨k0, w⟩ := e
    rw [updateA_cons]
    by_cases hk : k0 = k
    · subst hk
      rw [if_pos rfl, lookupA_cons, lookupA_cons, if_neg (Ne.symm h), if_neg (Ne.symm h), ih]
    · rw [if_neg hk, lookupA_cons, lookupA_cons]
      by_cases hk0 : k0 = k' <;> simp [hk0, ih]

theorem keysA_updateA {α : Type} (t : List (String × α)) (k : String) (v : α) :
    keysA (updateA t k v) = keysA t := by
  induction t with
  | nil => rfl
  | cons e t ih =>
    obtain ⟨k0, w⟩ := e
    by_cases hk : k0 = k <;> simp [updateA, keysA, hk] <;> simpa [updateA, keysA] using ih

theorem keysA_append {α : Type} (t₁ t₂ : List (String × α)) :
    keysA (t₁ ++ t₂) = keysA t₁ ++ keysA t₂ := by
  simp [keysA]

theorem lookupA_eq_none_iff {α : Type} (t : List (String × α)) (k : String) :
    lookupA t k = none ↔ k ∉ keysA t := by
  induction t with
  | nil => simp [lookupA_nil, keysA]
  | cons e t ih =>
    obtain ⟨k0, w⟩ := e
    rw [lookupA_cons]
    by_cases hk : k0 = k
    · simp [hk, keysA]
    · simp [hk, keysA, ih, Ne.symm hk]

theorem lookupA_isSome_iff {α : Type} (t : List (String × α)) (k : String) :
    (lookupA t k).isSome ↔ k ∈ keysA t := by
  rw [← Decidable.not_not (p := k ∈ keysA t), ← lookupA_eq_none_iff]
  cases h : lookupA t k <;> simp

theorem lookupA_filter_of_not_mem {α : Type} (t : List (String × α)) (p : String × α → Bool)
    (k : String) (h : k ∉ keysA t) : lookupA (t.filter p) k = none := by
  rw [lookupA_eq_none_iff]
  intro hmem
  apply h
  simp only [keysA, List.mem_map] at hmem ⊢
  obtain ⟨e, he, hek⟩ := hmem
  exact ⟨e, (List.mem_filter.mp he).1, hek⟩

theorem lookupA_filter {α : Type} (t : List (String × α)) (p : String × α → Bool) (k : String)
    (hnd : (keysA t).Nodup) :
    lookupA (t.filter p) k =
      match lookupA t k with
      | some v => if p (k, v) then some v else none
      | none => none := by
  induction t with
  | nil => rfl
  | cons e t ih =>
    obtain ⟨k0, w⟩ := e
    have hnd0 : k0 ∉ keysA t ∧ (keysA t).Nodup := by
      simpa [keysA] using hnd
    rw [lookupA_cons]
    by_cases hk : k0 = k
    · subst hk
      cases hp : p (k0, w)
      · rw [List.filter_cons_of_neg (by simp [hp])]
        rw [lookupA_filter_of_not_mem t p k0 hnd0.1]
        simp [hp]
      · rw [List.filter_cons_of_pos (by simp [hp]), lookupA_cons]
        simp [hp]
    · cases hp : p (k0, w)
      · rw [List.filter_cons_of_neg (by simp [hp]), ih hnd0.2]
        simp [hk]
      · rw [List.filter_cons_of_pos (by simp [hp]), lookupA_cons, ih hnd0.2]
        simp [hk]

/-! ## Lemmas about the fusion-store merge -/

theorem merge_last_contact (old incoming : OpenSkyData) :
    (old.merge incoming).last_contact = incoming.last_contact := rfl

theorem merge_step_of_none {tbl : List (String × Aircraft)} {s : OpenSkyData}
    (h : lookupA tbl s.icao24 = none) :
    merge_step tbl s = tbl ++ [(s.icao24, { opensky := s })] := by
  unfold merge_step
  rw [h]

theorem merge_step_of_newer {tbl : List (String × Aircraft)} {s : OpenSkyData} {cur : Aircraft}
    (h : lookupA tbl s.icao24 = some cur) (hgt : s.last_contact > cur.opensky.last_contact) :
    merge_step tbl s = updateA tbl s.icao24 { cur with opensky := cur.opensky.merge s } := by
  unfold merge_step
  rw [h]
  exact if_pos hgt

theorem merge_step_of_stale {tbl : List (String × Aircraft)} {s : OpenSkyData} {cur : Aircraft}
    (h : lookupA tbl s.icao24 = some cur) (hgt : ¬ s.last_contact > cur.opensky.last_contact) :
    merge_step tbl s = tbl := by
  unfold merge_step
  rw [h]
  exact if_neg hgt

theorem merge_step_mono (tbl : List (String × Aircraft)) (s : OpenSkyData) (id : String)
    (rec : Aircraft) (h : lookupA tbl id = some rec) :
    ∃ rec', lookupA (merge_step tbl s) id = some rec' ∧
      rec.opensky.last_contact ≤ rec'.opensky.last_contact := by
  cases hl : lookupA tbl s.icao24 with
  | none =>
    refine ⟨rec, ?_, le_refl _⟩
    rw [merge_step_of_none hl, lookupA_append, h]
  | some cur =>
    by_cases hgt : s.last_contact > cur.opensky.last_contact
    · rw [merge_step_of_newer hl hgt]
      by_cases hid : id = s.icao24
      · subst hid
        have hrec : rec = cur := by rw [h] at hl; exact Option.some_injective _ hl
        refine ⟨{ cur with opensky := cur.opensky.merge s }, ?_, ?_⟩
        · exact lookupA_updateA_self _ _ _ (by simp [hl])
        · rw [hrec]
          simpa [merge_last_contact] using le_of_lt hgt
      · exact ⟨rec, by rw [lookupA_updateA_ne _ _ _ _ hid, h], le_refl _⟩
    · rw [merge_step_of_stale hl hgt]
      exact ⟨rec, h, le_refl _⟩

theorem merge_apply_cons (s : OpenSkyData) (rest : List OpenSkyData)
    (tbl : List (String × Aircraft)) :
    merge_apply (s :: rest) tbl = merge_apply rest (merge_step tbl s) := rfl

theorem merge_apply_mono (states : List OpenSkyData) (tbl : List (String × Aircraft))
    (id : String) (rec : Aircraft) (h : lookupA tbl id = some rec) :
    ∃ rec', lookupA (merge_apply states tbl) id = some rec' ∧
      rec.opensky.last_contact ≤ rec'.opensky.last_contact := by
  induction states generalizing tbl rec with
  | nil => exact ⟨rec, h, le_refl _⟩
  | cons s rest ih =>
    obtain ⟨r1, hr1, hle1⟩ := merge_step_mono tbl s id rec h
    obtain ⟨r2, hr2, hle2⟩ := ih (merge_step tbl s) r1 hr1
    exact ⟨r2, hr2, le_trans hle1 hle2⟩

theorem merge_step_isSome (tbl : List (String × Aircraft)) (s : OpenSkyData) (id : String) :
    (lookupA (merge_step tbl s) id).isSome ↔
      (lookupA tbl id).isSome ∨ id = s.icao24 := by
  cases hl : lookupA tbl s.icao24 with
  | none =>
    rw [merge_step_of_none hl, lookupA_append]
    cases h : lookupA tbl id with
    | some v => simp
    | none =>
      by_cases hid : s.icao24 = id
      · subst hid
        simp [lookupA_cons]
      · rw [lookupA_cons, if_neg hid]
        simp only [lookupA_nil, h, Option.isSome_none, Bool.false_eq_true, false_iff,
          false_or]
        exact fun hc => hid hc.symm
  | some cur =>
    by_cases hgt : s.last_contact > cur.opensky.last_contact
    · rw [merge_step_of_newer hl hgt]
      by_cases hid : id = s.icao24
      · subst hid
        rw [lookupA_updateA_self _ _ _ (by simp [hl])]
        simp
      · rw [lookupA_updateA_ne _ _ _ _ hid]
        simp [hid]
    · rw [merge_step_of_stale hl hgt]
      constructor
      · exact fun hs => Or.inl hs
      · rintro (hs | hid)
        · exact hs
        · subst hid
          simp [hl]

theorem merge_apply_isSome (states : List OpenSkyData) (tbl : List (String × Aircraft))
    (id : String) :
    (lookupA (merge_apply states tbl) id).isSome ↔
      (lookupA tbl id).isSome ∨ id ∈ states.map OpenSkyData.icao24 := by
  induction states generalizing tbl with
  | nil => simp [merge_apply]
  | cons s rest ih =>
    rw [merge_apply_cons, ih, merge_step_isSome]
    simp only [List.map_cons, List.mem_cons]
    constructor
    · rintro ((hs | hid) | hmem)
      · exact Or.inl hs
      · exact Or.inr (Or.inl hid)
      · exact Or.inr (Or.inr hmem)
    · rintro (hs | hid | hmem)
      · exact Or.inl (Or.inl hs)
      · exact Or.inl (Or.inr hid)
      · exact Or.inr hmem

theorem merge_step_nodup (tbl : List (String × Aircraft)) (s : OpenSkyData)
    (hnd : (keysA tbl).Nodup) : (keysA (merge_step tbl s)).Nodup := by
  cases hl : lookupA tbl s.icao24 with
  | none =>
    rw [merge_step_of_none hl, keysA_append]
    have hnm : s.icao24 ∉ keysA tbl := (lookupA_eq_none_iff _ _).mp hl
    simp only [keysA, List.map_cons, List.map_nil]
    rw [List.nodup_append]
    refine ⟨hnd, List.nodup_singleton _, ?_⟩
    intro a ha hb
    simp only [List.mem_singleton] at hb
    subst hb
    exact hnm ha
  | some cur =>
    by_cases hgt : s.last_contact > cur.opensky.last_contact
    · rw [merge_step_of_newer hl hgt, keysA_updateA]
      exact hnd
    · rw [merge_step_of_stale hl hgt]
      exact hnd

theorem merge_apply_nodup (states : List OpenSkyData) (tbl : List (String × Aircraft))
    (hnd : (keysA tbl).Nodup) : (keysA (merge_apply states tbl)).Nodup := by
  induction states generalizing tbl with
  | nil => exact hnd
  | cons s rest ih => exact ih (merge_step tbl s) (merge_step_nodup tbl s hnd)

theorem merge_osky_states_lookup (expire_seconds now : Int) (states : List OpenSkyData)
    (tbl : List (String × Aircraft)) (hnd : (keysA tbl).Nodup) (id : String) (rec' : Aircraft) :
    lookupA (merge_osky_states expire_seconds now states tbl) id = some rec' ↔
      (lookupA (merge_apply states tbl) id = some rec' ∧
        (id ∈ states.map OpenSkyData.icao24 ∨
          now - rec'.opensky.last_contact ≤ expire_seconds)) := by
  unfold merge_osky_states
  rw [lookupA_filter _ _ _ (merge_apply_nodup states tbl hnd)]
  cases h : lookupA (merge_apply states tbl) id with
  | none => simp
  | some v =>
    show (if (decide (id ∈ states.map OpenSkyData.icao24)
        || decide (now - v.opensky.last_contact ≤ expire_seconds)) = true
      then some v else none) = some rec' ↔ _
    by_cases hc : (id ∈ states.map OpenSkyData.icao24 ∨
        now - v.opensky.last_contact ≤ expire_seconds)
    · have hb : (decide (id ∈ states.map OpenSkyData.icao24)
          || decide (now - v.opensky.last_contact ≤ expire_seconds)) = true := by
        rcases hc with hA | hB
        · simp [hA]
        · simp [hB]
      rw [if_pos hb]
      constructor
      · intro hv
        refine ⟨hv, ?_⟩
        have hvv : v = rec' := Option.some_injective _ hv
        rw [← hvv]
        exact hc
      · exact fun hx => hx.1
    · have hb : (decide (id ∈ states.map OpenSkyData.icao24)
          || decide (now - v.opensky.last_contact ≤ expire_seconds)) = false := by
        push_neg at hc
        rw [decide_eq_false hc.1, decide_eq_false (not_le.mpr hc.2)]
        rfl
      have hb2 : ¬ ((decide (id ∈ states.map OpenSkyData.icao24)
          || decide (now - v.opensky.last_contact ≤ expire_seconds)) = true) := by
        rw [hb]
        exact Bool.false_ne_true
      rw [if_neg hb2]
      constructor
      · intro hv
        exact absurd hv (by simp)
      · intro hx
        have hvv : v = rec' := Option.some_injective _ hx.1
        rw [← hvv] at hx
        exact absurd hx.2 hc

/-! ## Lemmas about the ingestor update and the merge helper fields -/

theorem carriedOr_some {β : Type} (v : β) (old : Option β) :
    carriedOr (some v) old = some v := rfl

theorem carriedOr_none {β : Type} (old : Option β) :
    carriedOr (none : Option β) old = old := rfl

theorem carriedOr_of_isSome {β : Type} (x y : Option β) (h : x.isSome → y.isSome) :
    carriedOr y x = y := by
  cases hy : y with
  | some v => rfl
  | none =>
    cases hx : x with
    | none => rfl
    | some v =>
      rw [hx, hy] at h
      simp at h

/-- With the carried-field presence condition, the spec-modelled merge makes
the incoming state win wholesale. -/
theorem merge_eq_incoming (a b : OpenSkyData)
    (hcs : a.callsign.isSome → b.callsign.isSome)
    (hoc : a.origin_country.isSome → b.origin_country.isSome)
    (hlp : a.last_position.isSome → b.last_position.isSome)
    (hlon : a.longitude.isSome → b.longitude.isSome)
    (hlat : a.latitude.isSome → b.latitude.isSome)
    (hga : a.geo_altitude.isSome → b.geo_altitude.isSome)
    (hba : a.baro_altitude.isSome → b.baro_altitude.isSome)
    (hv : a.velocity.isSome → b.velocity.isSome)
    (htt : a.true_track.isSome → b.true_track.isSome)
    (hvr : a.vertical_rate.isSome → b.vertical_rate.isSome)
    (hsq : a.squawk.isSome → b.squawk.isSome)
    (hat : a.aircraft_type.isSome → b.aircraft_type.isSome) :
    a.merge b = b := by
  unfold OpenSkyData.merge
  rw [carriedOr_of_isSome _ _ hcs, carriedOr_of_isSome _ _ hoc, carriedOr_of_isSome _ _ hlp,
    carriedOr_of_isSome _ _ hlon, carriedOr_of_isSome _ _ hlat, carriedOr_of_isSome _ _ hga,
    carriedOr_of_isSome _ _ hba, carriedOr_of_isSome _ _ hv, carriedOr_of_isSome _ _ htt,
    carriedOr_of_isSome _ _ hvr, carriedOr_of_isSome _ _ hsq, carriedOr_of_isSome _ _ hat]

/-- The record that `apply_msg` writes over an existing record. -/
def slurp_updated (rec : OpenSkyData) (p : ParsedMsg) : OpenSkyData :=
  { rec with
    last_contact := p.logged_timestamp
    callsign := carriedOr p.callsign rec.callsign
    baro_altitude := carriedOr p.baro_altitude rec.baro_altitude
    velocity := carriedOr p.velocity rec.velocity
    true_track := carriedOr p.track rec.true_track
    latitude := carriedOr p.lat rec.latitude
    longitude := carriedOr p.lon rec.longitude
    vertical_rate := carriedOr p.vertical_rate_ms rec.vertical_rate
    squawk := carriedOr p.squawk rec.squawk
    spi := p.spi
    on_ground := p.is_on_ground
    last_position :=
      if p.lat.isSome ∧ p.lon.isSome then some p.logged_timestamp else rec.last_position }

theorem apply_msg_lookup_existing (typeOf : String → Option String) (st : SlurpState)
    (p : ParsedMsg) (rec : OpenSkyData) (h : lookupA st.aircraft p.hex_ident = some rec) :
    lookupA (apply_msg typeOf st p).aircraft p.hex_ident = some (slurp_updated rec p) := by
  unfold apply_msg
  simp only [h]
  exact lookupA_updateA_self _ _ _ (by simp [h])

theorem apply_msg_lookup_new (typeOf : String → Option String) (st : SlurpState)
    (p : ParsedMsg) (h : lookupA st.aircraft p.hex_ident = none) :
    lookupA (apply_msg typeOf st p).aircraft p.hex_ident = some
      (slurp_updated
        { icao24 := p.hex_ident
          source := 1
          origin_country := get_country_from_icao24 p.hex_ident
          aircraft_type := typeOf p.hex_ident } p) := by
  unfold apply_msg
  simp only [h]
  rw [lookupA_append, h, lookupA_cons, if_pos rfl]
  rfl

theorem apply_msg_last_contact (typeOf : String → Option String) (st : SlurpState)
    (p : ParsedMsg) (r' : OpenSkyData)
    (h : lookupA (apply_msg typeOf st p).aircraft p.hex_ident = some r') :
    r'.last_contact = p.logged_timestamp := by
  cases hl : lookupA st.aircraft p.hex_ident with
  | some rec =>
    rw [apply_msg_lookup_existing typeOf st p rec hl] at h
    rw [← Option.some_injective _ h]
    rfl
  | none =>
    rw [apply_msg_lookup_new typeOf st p hl] at h
    rw [← Option.some_injective _ h]
    rfl

/-! ## Lemmas about the enrichment client -/

theorem set_flightaware_lookup (tbl : List (String × Aircraft)) (k : String)
    (v : Option FlightAwareData) (a : Aircraft) (h : lookupA tbl k = some a) :
    lookupA (set_flightaware tbl k v) k = some { a with flightaware := v } := by
  unfold set_flightaware
  simp only [h]
  exact lookupA_updateA_self _ _ _ (by simp [h])

theorem set_flightaware_cache (st : HybridState) (k : String) (v : Option FlightAwareData) :
    ({ st with current_aircraft := set_flightaware st.current_aircraft k v } :
      HybridState).fa_cache = st.fa_cache := rfl

theorem fa_key_congr (f g : FAFlight)
    (h : parse_fa_components f (some "") = parse_fa_components g (some "")) :
    fa_component_key f = fa_component_key g := by
  unfold fa_component_key
  rw [h]

theorem can_cache_iff (flights : List FAFlight) :
    can_cache_flightaware_request flights = true ↔
      ∃ f0 rest, flights = f0 :: rest ∧
        ∀ f ∈ flights, fa_component_key f = fa_component_key f0 := by
  cases flights with
  | nil =>
    simp only [can_cache_flightaware_request, Bool.false_eq_true, false_iff]
    rintro ⟨f0, rest, heq, -⟩
    exact List.noConfusion heq
  | cons f0 rest =>
    unfold can_cache_flightaware_request
    rw [List.all_eq_true]
    constructor
    · intro hall
      refine ⟨f0, rest, rfl, ?_⟩
      intro f hf
      exact eq_of_beq (hall f hf)
    · rintro ⟨g0, grest, heq, hall⟩
      cases heq
      intro f hf
      exact beq_iff_eq.mpr (hall f hf)

/-! ## Claim theorems -/

/-- The synthetic local-feed line of the end-to-end test: 22 comma-separated
fields, hex id `ABC123`, logged date/time `2024/01/15 12:00:01.000`,
callsign `"UAL123 "`, latitude `45.5`, longitude `-122.6`. -/
def c2_line : String :=
  "MSG,3,1,1,ABC123,1,2024/01/15,12:00:00.000,2024/01/15,12:00:01.000,UAL123 ,35000,450,90,45.5,-122.6,0,1200,0,0,0,0"

/-- The ingestor state after feeding `c2_line` to an empty ingestor (type
database unreachable, UTC host clock, wall-clock fallback 0). -/
def c2_state : SlurpState := process_message (fun _ => none) 0 0 {} c2_line

/-- C2: feeding the local-feed ingestor one well-formed 22-field CSV line with
hex id `abc123`, latitude/longitude present, and callsign `"UAL123 "` yields a
table with exactly one record, keyed `"abc123"`, whose callsign is the trimmed
`"UAL123"` and whose `last_position` is non-null and equals the timestamp
parsed from the line's logged date and time fields
(`2024/01/15 12:00:01.000` = 1705320001 at UTC offset 0). -/
theorem claim_C2_end_to_end :
    c2_state.aircraft.map Prod.fst = ["abc123"] ∧
    (lookupA c2_state.aircraft "abc123").map OpenSkyData.callsign = some (some "UAL123") ∧
    (lookupA c2_state.aircraft "abc123").map OpenSkyData.last_position =
      some (some 1705320001) ∧
    parse_timestamp 0 "2024/01/15" "12:00:01.000" = some 1705320001 := by
  exact ⟨by decide, by decide, by decide, by decide⟩

/-- C6: the quiet-hours gate evaluated at the claim's own example window
22→6 behaves as claimed (hours 23 and 2 suppressed, hour 10 allowed), but on
the failing input quiet_start=9, quiet_end=17, hour=12 the code ALLOWS the
network call (`true`), although the claim requires every hour with
start ≤ hour < end to be suppressed for a non-wraparound window: the
non-wraparound branch `start <= now.hour or now.hour < end` is a tautology
whenever start ≤ end, so such a window never suppresses anything. -/
theorem claim_C6_quiet_hours :
    can_process_flightaware_request (some 9) (some 17) 12 = true ∧
    (9 : Int) ≤ 12 ∧ (12 : Int) < 17 ∧
    can_process_flightaware_request (some 22) (some 6) 23 = false ∧
    can_process_flightaware_request (some 22) (some 6) 2 = false ∧
    can_process_flightaware_request (some 22) (some 6) 10 = true := by
  decide

/-- C9 counterexample: the resolver maps every address in the
`000000`–`003FFF` block to the country name `"Unallocated"` (the block is the
first covered range of the table), not to `None` as the claim states. -/
theorem claim_C9_counterexample :
    get_country_from_icao24 "000000" = some "Unallocated" ∧
    ¬ get_country_from_icao24 "000000" = none := by
  decide

/-- C9 amended: `resolve("3C6444")` returns `"Germany"`, and every address
value in the `000000`–`003FFF` block resolves to the table's `"Unallocated"`
entry (first matching range wins); `None` is returned only for addresses in
genuinely uncovered gaps or unparseable input. -/
theorem claim_C9_amended :
    get_country_from_icao24 "3C6444" = some "Germany" ∧
    ∀ v : Nat, v ≤ 16383 → icao_range_lookup v = some "Unallocated" := by
  constructor
  · decide
  · intro v hv
    have hstep : List.find? (fun r => decide (hexVal r.1 ≤ v ∧ v ≤ hexVal r.2.1)) ICAO24_RANGES
        = some ("000000", "003FFF", "", "Unallocated") := by
      rw [show ICAO24_RANGES =
        ("000000", "003FFF", "", "Unallocated") :: ICAO24_RANGES.tail from rfl]
      exact List.find?_cons_of_pos _ (decide_eq_true ⟨Nat.zero_le v, hv⟩)
    unfold icao_range_lookup
    rw [hstep]
    rfl

/-- Witness for the amended C9 at the concrete in-range value 100. -/
theorem claim_C9_amended_witness : icao_range_lookup 100 = some "Unallocated" :=
  claim_C9_amended.2 100 (by decide)

/-- C10: with no FlightAware API key configured (`None` or the falsy empty
string), `request_enrich` is a no-op: the state, including the enrichment
queue, is returned unchanged for every id. -/
theorem claim_C10_request_enrich_noop (cfg : ApiConfig) (st : HybridState) (icao24 : String)
    (h : cfg.flightaware_api_key = none ∨ cfg.flightaware_api_key = some "") :
    request_enrich cfg st icao24 = st := by
  unfold request_enrich
  rcases h with h | h <;> rw [h]
  simp

/-- Witness for C10 at a concrete state and id. -/
theorem claim_C10_witness :
    request_enrich { flightaware_api_key := none } { fa_queue := ["a1b2c3"] } "d4e5f6" =
      { fa_queue := ["a1b2c3"] } :=
  claim_C10_request_enrich_noop { flightaware_api_key := none } { fa_queue := ["a1b2c3"] }
    "d4e5f6" (Or.inl rfl)

theorem expire_old_aircraft_lookup (expire current : Int) (st : SlurpState)
    (hnd : (keysA st.aircraft).Nodup) (id : String) (rec : OpenSkyData) :
    lookupA (expire_old_aircraft expire current st).aircraft id = some rec ↔
      (lookupA st.aircraft id = some rec ∧ current - rec.last_contact ≤ expire) := by
  show lookupA (st.aircraft.filter _) id = some rec ↔ _
  rw [lookupA_filter _ _ _ hnd]
  cases h : lookupA st.aircraft id with
  | none => simp
  | some v =>
    show (if decide (current - v.last_contact ≤ expire) = true then some v else none) =
        some rec ↔ _
    by_cases hc : current - v.last_contact ≤ expire
    · rw [if_pos (decide_eq_true hc)]
      constructor
      · intro hv
        have hvv : v = rec := Option.some_injective _ hv
        subst hvv
        exact ⟨rfl, hc⟩
      · exact fun hx => hx.1
    · rw [if_neg (by simp [hc])]
      constructor
      · intro hv
        exact absurd hv (by simp)
      · intro hx
        have hvv : v = rec := Option.some_injective _ hx.1
        subst hvv
        exact absurd hx.2 hc

/-- A local-feed line for id `abc123` whose logged time is 12:00:02. -/
def c1_line_newer : String :=
  "MSG,3,1,1,ABC123,1,2024/01/15,12:00:00.000,2024/01/15,12:00:02.000,,,,,,,,,0,0,0,0"

/-- A later-arriving local-feed line for the same id whose logged time is the
OLDER 12:00:01. -/
def c1_line_older : String :=
  "MSG,3,1,1,ABC123,1,2024/01/15,12:00:00.000,2024/01/15,12:00:01.000,,,,,,,,,0,0,0,0"

/-- Ingestor state after the newer-timestamped line alone. -/
def c1_state1 : SlurpState := process_message (fun _ => none) 0 0 {} c1_line_newer

/-- Ingestor state after the newer- and then the older-timestamped line. -/
def c1_state2 : SlurpState := process_message (fun _ => none) 0 0 c1_state1 c1_line_older

/-- C1 counterexample: the local-feed message processor applies a message
whose logged timestamp (1705320001) is strictly OLDER than the record's
current `last_contact` (1705320002), lowering `last_contact` — so
`lastContact` is not monotonically non-decreasing on the local-feed path and
the strictly-greater guard does not hold on every mutating path. -/
theorem claim_C1_counterexample :
    (lookupA c1_state1.aircraft "abc123").map OpenSkyData.last_contact = some 1705320002 ∧
    (lookupA c1_state2.aircraft "abc123").map OpenSkyData.last_contact = some 1705320001 ∧
    (1705320001 : Int) < 1705320002 := by
  exact ⟨by decide, by decide, by decide⟩

/-- C1 amended: on the fusion-store merge path an existing record's
`lastContact` never decreases (the strictly-greater guard holds there), while
the local-feed message processor unconditionally sets `last_contact` to each
message's logged timestamp, whatever the record held before. -/
theorem claim_C1_amended :
    (∀ (expire now : Int) (states : List OpenSkyData) (tbl : List (String × Aircraft)),
      (keysA tbl).Nodup → ∀ (id : String) (rec rec' : Aircraft),
        lookupA tbl id = some rec →
        lookupA (merge_osky_states expire now states tbl) id = some rec' →
        rec.opensky.last_contact ≤ rec'.opensky.last_contact) ∧
    (∀ (typeOf : String → Option String) (st : SlurpState) (p : ParsedMsg)
        (r' : OpenSkyData),
      lookupA (apply_msg typeOf st p).aircraft p.hex_ident = some r' →
      r'.last_contact = p.logged_timestamp) := by
  constructor
  · intro expire now states tbl hnd id rec rec' hrec hrec'
    have h1 := (merge_osky_states_lookup expire now states tbl hnd id rec').mp hrec'
    obtain ⟨r2, hr2, hle⟩ := merge_apply_mono states tbl id rec hrec
    rw [h1.1] at hr2
    have hx : rec' = r2 := Option.some_injective _ hr2
    rw [hx]
    exact hle
  · exact apply_msg_last_contact

/-- Concrete record for the C1 witness: tracked with `last_contact` 5. -/
def c1w_old : Aircraft := { opensky := { icao24 := "abc009", last_contact := 5 } }

/-- Incoming state for the C1 witness: `last_contact` 7. -/
def c1w_new : OpenSkyData := { icao24 := "abc009", last_contact := 7 }

/-- Merged record expected for the C1 witness. -/
def c1w_res : Aircraft := { opensky := { icao24 := "abc009", last_contact := 7 } }

/-- Parsed local-feed message for the C1 witness (logged timestamp 3). -/
def c1w_parsed : ParsedMsg :=
  { hex_ident := "abc009", logged_timestamp := 3, callsign := none, baro_altitude := none,
    velocity := none, track := none, lat := none, lon := none, vertical_rate_ms := none,
    squawk := none, spi := false, is_on_ground := false }

/-- Record created by the C1 witness message. -/
def c1w_slurp_rec : OpenSkyData :=
  { icao24 := "abc009", origin_country := some "United States", last_contact := 3,
    source := 1 }

/-- Witness for the amended C1 at concrete inputs. -/
theorem claim_C1_amended_witness :
    c1w_old.opensky.last_contact ≤ c1w_res.opensky.last_contact ∧
    c1w_slurp_rec.last_contact = c1w_parsed.logged_timestamp :=
  ⟨claim_C1_amended.1 900 7 [c1w_new] [("abc009", c1w_old)] (by decide) "abc009" c1w_old
      c1w_res (by decide) (by decide),
    claim_C1_amended.2 (fun _ => none) {} c1w_parsed c1w_slurp_rec (by decide)⟩

/-- An incoming state whose `last_contact` (0) is far beyond the expiry
window at `now = 1000`. -/
def c3_stale : OpenSkyData := { icao24 := "ddeeff", last_contact := 0 }

/-- C3 counterexample: after a merge batch containing a state whose age
`now − lastContact = 1000 > 900` exceeds the expiry window, the record is
nonetheless present in the table — expiry skips every id that appears in the
current batch, so "every record whose age exceeds the window is removed" is
false. -/
theorem claim_C3_counterexample :
    (lookupA (merge_osky_states 900 1000 [c3_stale] []) "ddeeff").isSome = true ∧
    (1000 : Int) - c3_stale.last_contact > 900 := by
  exact ⟨by decide, by decide⟩

/-- C3 amended: after a merge batch, a record survives the fusion store if
and only if it results from the batch application AND is either among the
batch ids or within the expiry window (so expiry is the sole removal path,
but it spares batch members); batch application itself never removes —
a record is present after it iff it was present before or its id is in the
batch.  The local ingestor's own expiry sweep removes exactly the records
older than its window. -/
theorem claim_C3_amended :
    (∀ (expire now : Int) (states : List OpenSkyData) (tbl : List (String × Aircraft)),
      (keysA tbl).Nodup → ∀ (id : String) (rec' : Aircraft),
        (lookupA (merge_osky_states expire now states tbl) id = some rec' ↔
          (lookupA (merge_apply states tbl) id = some rec' ∧
            (id ∈ states.map OpenSkyData.icao24 ∨
              now - rec'.opensky.last_contact ≤ expire)))) ∧
    (∀ (states : List OpenSkyData) (tbl : List (String × Aircraft)) (id : String),
      ((lookupA (merge_apply states tbl) id).isSome ↔
        (lookupA tbl id).isSome ∨ id ∈ states.map OpenSkyData.icao24)) ∧
    (∀ (expire current : Int) (st : SlurpState), (keysA st.aircraft).Nodup →
      ∀ (id : String) (rec : OpenSkyData),
        (lookupA (expire_old_aircraft expire current st).aircraft id = some rec ↔
          (lookupA st.aircraft id = some rec ∧ current - rec.last_contact ≤ expire))) :=
  ⟨merge_osky_states_lookup, merge_apply_isSome, expire_old_aircraft_lookup⟩

/-- Witness for the amended C3 at concrete inputs: the stale in-batch record
is characterised by the iff, the batch-application membership holds, and the
ingestor sweep drops a record of age 1000 with window 900. -/
theorem claim_C3_amended_witness :
    (lookupA (merge_osky_states 900 1000 [c3_stale] []) "ddeeff" =
        some { opensky := c3_stale } ↔
      (lookupA (merge_apply [c3_stale] []) "ddeeff" = some { opensky := c3_stale } ∧
        ("ddeeff" ∈ [c3_stale].map OpenSkyData.icao24 ∨
          (1000 : Int) - ({ opensky := c3_stale } : Aircraft).opensky.last_contact ≤ 900))) ∧
    ((lookupA (merge_apply [c3_stale] []) "ddeeff").isSome ↔
      (lookupA ([] : List (String × Aircraft)) "ddeeff").isSome ∨
        "ddeeff" ∈ [c3_stale].map OpenSkyData.icao24) ∧
    (lookupA (expire_old_aircraft 900 1000 { aircraft := [("ddeeff", c3_stale)] }).aircraft
        "ddeeff" = some c3_stale ↔
      (lookupA [("ddeeff", c3_stale)] "ddeeff" = some c3_stale ∧
        (1000 : Int) - c3_stale.last_contact ≤ 900)) :=
  ⟨claim_C3_amended.1 900 1000 [c3_stale] [] (by decide) "ddeeff" { opensky := c3_stale },
    claim_C3_amended.2.1 [c3_stale] [] "ddeeff",
    claim_C3_amended.2.2 900 1000 { aircraft := [("ddeeff", c3_stale)] } (by decide)
      "ddeeff" c3_stale⟩

/-- Older incoming state for the C5 counterexample: carries a callsign. -/
def c5_a : OpenSkyData := { icao24 := "abc001", last_contact := 1, callsign := some "AAA111" }

/-- Newer incoming state for the C5 counterexample: no callsign. -/
def c5_b : OpenSkyData := { icao24 := "abc001", last_contact := 2 }

/-- C5 counterexample: two states for one id with `a.lastContact <
b.lastContact` merged into an empty table give different final tables in the
two orders — a-then-b keeps a's callsign (b does not carry one), b-then-a
drops a entirely as stale — so the incremental merge is not
timestamp-commutative as claimed. -/
theorem claim_C5_counterexample :
    c5_a.icao24 = c5_b.icao24 ∧ c5_a.last_contact < c5_b.last_contact ∧
    merge_step (merge_step [] c5_a) c5_b ≠ merge_step (merge_step [] c5_b) c5_a := by
  exact ⟨by decide, by decide, by decide⟩

/-- C5 amended: the merge is timestamp-commutative on an empty table
provided the newer state `b` carries a value for every optional field the
older state `a` carries. -/
theorem claim_C5_amended (a b : OpenSkyData) (hid : a.icao24 = b.icao24)
    (hlt : a.last_contact < b.last_contact)
    (hcs : a.callsign.isSome → b.callsign.isSome)
    (hoc : a.origin_country.isSome → b.origin_country.isSome)
    (hlp : a.last_position.isSome → b.last_position.isSome)
    (hlon : a.longitude.isSome → b.longitude.isSome)
    (hlat : a.latitude.isSome → b.latitude.isSome)
    (hga : a.geo_altitude.isSome → b.geo_altitude.isSome)
    (hba : a.baro_altitude.isSome → b.baro_altitude.isSome)
    (hv : a.velocity.isSome → b.velocity.isSome)
    (htt : a.true_track.isSome → b.true_track.isSome)
    (hvr : a.vertical_rate.isSome → b.vertical_rate.isSome)
    (hsq : a.squawk.isSome → b.squawk.isSome)
    (hat : a.aircraft_type.isSome → b.aircraft_type.isSome) :
    merge_step (merge_step [] a) b = merge_step (merge_step [] b) a := by
  have ha : merge_step [] a = [(a.icao24, ({ opensky := a } : Aircraft))] := by
    rw [merge_step_of_none (lookupA_nil _), List.nil_append]
  have hb : merge_step [] b = [(b.icao24, ({ opensky := b } : Aircraft))] := by
    rw [merge_step_of_none (lookupA_nil _), List.nil_append]
  have hlook_a : lookupA [(a.icao24, ({ opensky := a } : Aircraft))] b.icao24 =
      some { opensky := a } := by
    rw [← hid, lookupA_cons, if_pos rfl]
  have hlook_b : lookupA [(b.icao24, ({ opensky := b } : Aircraft))] a.icao24 =
      some { opensky := b } := by
    rw [hid, lookupA_cons, if_pos rfl]
  rw [ha, hb, merge_step_of_newer hlook_a hlt, merge_step_of_stale hlook_b (lt_asymm hlt)]
  rw [show ({ opensky := a } : Aircraft).opensky.merge b = b from
    merge_eq_incoming a b hcs hoc hlp hlon hlat hga hba hv htt hvr hsq hat]
  simp [updateA, hid]

/-- Older state for the C5 witness: carries nothing optional. -/
def c5w_a : OpenSkyData := { icao24 := "abc005", last_contact := 1 }

/-- Newer state for the C5 witness: carries a callsign as well. -/
def c5w_b : OpenSkyData := { icao24 := "abc005", last_contact := 2, callsign := some "BBB05" }

/-- Witness for the amended C5 at concrete inputs. -/
theorem claim_C5_amended_witness :
    merge_step (merge_step [] c5w_a) c5w_b = merge_step (merge_step [] c5w_b) c5w_a :=
  claim_C5_amended c5w_a c5w_b rfl (by decide) (by decide) (by decide) (by decide)
    (by decide) (by decide) (by decide) (by decide) (by decide) (by decide) (by decide)
    (by decide) (by decide)

/-- C4: for the spec-modelled field-level merge and for the local-feed update
alike, a field the update does not carry leaves the record's prior value
untouched, a carried field overwrites it, and the two boolean flags
`on_ground`/`spi` are always overwritten. -/
theorem claim_C4_frame :
    (∀ old incoming : OpenSkyData,
      (incoming.callsign = none → (old.merge incoming).callsign = old.callsign) ∧
      (incoming.baro_altitude = none →
        (old.merge incoming).baro_altitude = old.baro_altitude) ∧
      (incoming.geo_altitude = none → (old.merge incoming).geo_altitude = old.geo_altitude) ∧
      (incoming.velocity = none → (old.merge incoming).velocity = old.velocity) ∧
      (incoming.true_track = none → (old.merge incoming).true_track = old.true_track) ∧
      (incoming.latitude = none → (old.merge incoming).latitude = old.latitude) ∧
      (incoming.longitude = none → (old.merge incoming).longitude = old.longitude) ∧
      (incoming.vertical_rate = none →
        (old.merge incoming).vertical_rate = old.vertical_rate) ∧
      (incoming.squawk = none → (old.merge incoming).squawk = old.squawk) ∧
      (incoming.last_position = none →
        (old.merge incoming).last_position = old.last_position) ∧
      (∀ c, incoming.callsign = some c → (old.merge incoming).callsign = some c) ∧
      (∀ q, incoming.baro_altitude = some q → (old.merge incoming).baro_altitude = some q) ∧
      (∀ q, incoming.velocity = some q → (old.merge incoming).velocity = some q) ∧
      (∀ q, incoming.true_track = some q → (old.merge incoming).true_track = some q) ∧
      (∀ q, incoming.latitude = some q → (old.merge incoming).latitude = some q) ∧
      (∀ q, incoming.longitude = some q → (old.merge incoming).longitude = some q) ∧
      (∀ q, incoming.vertical_rate = some q → (old.merge incoming).vertical_rate = some q) ∧
      (∀ s, incoming.squawk = some s → (old.merge incoming).squawk = some s) ∧
      (old.merge incoming).on_ground = incoming.on_ground ∧
      (old.merge incoming).spi = incoming.spi) ∧
    (∀ (typeOf : String → Option String) (st : SlurpState) (p : ParsedMsg)
        (rec r' : OpenSkyData),
      lookupA st.aircraft p.hex_ident = some rec →
      lookupA (apply_msg typeOf st p).aircraft p.hex_ident = some r' →
      ((p.callsign = none → r'.callsign = rec.callsign) ∧
        (p.baro_altitude = none → r'.baro_altitude = rec.baro_altitude) ∧
        (p.velocity = none → r'.velocity = rec.velocity) ∧
        (p.track = none → r'.true_track = rec.true_track) ∧
        (p.lat = none → r'.latitude = rec.latitude) ∧
        (p.lon = none → r'.longitude = rec.longitude) ∧
        (p.vertical_rate_ms = none → r'.vertical_rate = rec.vertical_rate) ∧
        (p.squawk = none → r'.squawk = rec.squawk) ∧
        (p.lat = none → r'.last_position = rec.last_position) ∧
        (p.lon = none → r'.last_position = rec.last_position) ∧
        r'.geo_altitude = rec.geo_altitude ∧
        (∀ c, p.callsign = some c → r'.callsign = some c) ∧
        (∀ q, p.baro_altitude = some q → r'.baro_altitude = some q) ∧
        (∀ q, p.velocity = some q → r'.velocity = some q) ∧
        (∀ q, p.track = some q → r'.true_track = some q) ∧
        (∀ q, p.lat = some q → r'.latitude = some q) ∧
        (∀ q, p.lon = some q → r'.longitude = some q) ∧
        (∀ q, p.vertical_rate_ms = some q → r'.vertical_rate = some q) ∧
        (∀ s, p.squawk = some s → r'.squawk = some s) ∧
        r'.spi = p.spi ∧ r'.on_ground = p.is_on_ground)) := by
  constructor
  · intro old incoming
    and_intros <;> intros <;>
      simp_all [OpenSkyData.merge, carriedOr_none, carriedOr_some]
  · intro typeOf st p rec r' hrec hr'
    rw [apply_msg_lookup_existing typeOf st p rec hrec] at hr'
    have hx : slurp_updated rec p = r' := Option.some_injective _ hr'
    subst hx
    and_intros <;> intros <;>
      simp_all [slurp_updated, carriedOr_none, carriedOr_some]

/-- Tracked record for the C4 witness. -/
def c4_rec : OpenSkyData :=
  { icao24 := "abc004", callsign := some "KLM14", last_contact := 1, squawk := some "7000" }

/-- Ingestor state for the C4 witness. -/
def c4_st : SlurpState := { aircraft := [("abc004", c4_rec)] }

/-- Parsed message for the C4 witness: carries nothing optional. -/
def c4_p : ParsedMsg :=
  { hex_ident := "abc004", logged_timestamp := 9, callsign := none, baro_altitude := none,
    velocity := none, track := none, lat := none, lon := none, vertical_rate_ms := none,
    squawk := none, spi := true, is_on_ground := false }

/-- Updated record for the C4 witness: only the clock and the boolean flags
move. -/
def c4_res : OpenSkyData :=
  { icao24 := "abc004", callsign := some "KLM14", last_contact := 9, squawk := some "7000",
    spi := true }

/-- Witness for C4 at concrete inputs. -/
theorem claim_C4_frame_witness :
    (c4_p.callsign = none → c4_res.callsign = c4_rec.callsign) ∧
    (c4_p.baro_altitude = none → c4_res.baro_altitude = c4_rec.baro_altitude) ∧
    (c4_p.velocity = none → c4_res.velocity = c4_rec.velocity) ∧
    (c4_p.track = none → c4_res.true_track = c4_rec.true_track) ∧
    (c4_p.lat = none → c4_res.latitude = c4_rec.latitude) ∧
    (c4_p.lon = none → c4_res.longitude = c4_rec.longitude) ∧
    (c4_p.vertical_rate_ms = none → c4_res.vertical_rate = c4_rec.vertical_rate) ∧
    (c4_p.squawk = none → c4_res.squawk = c4_rec.squawk) ∧
    (c4_p.lat = none → c4_res.last_position = c4_rec.last_position) ∧
    (c4_p.lon = none → c4_res.last_position = c4_rec.last_position) ∧
    c4_res.geo_altitude = c4_rec.geo_altitude ∧
    (∀ c, c4_p.callsign = some c → c4_res.callsign = some c) ∧
    (∀ q, c4_p.baro_altitude = some q → c4_res.baro_altitude = some q) ∧
    (∀ q, c4_p.velocity = some q → c4_res.velocity = some q) ∧
    (∀ q, c4_p.track = some q → c4_res.true_track = some q) ∧
    (∀ q, c4_p.lat = some q → c4_res.latitude = some q) ∧
    (∀ q, c4_p.lon = some q → c4_res.longitude = some q) ∧
    (∀ q, c4_p.vertical_rate_ms = some q → c4_res.vertical_rate = some q) ∧
    (∀ s, c4_p.squawk = some s → c4_res.squawk = some s) ∧
    c4_res.spi = c4_p.spi ∧ c4_res.on_ground = c4_p.is_on_ground :=
  claim_C4_frame.2 (fun _ => none) c4_st c4_p c4_rec c4_res (by decide) (by decide)

theorem enrich_quiet_eq (cfg : ApiConfig) (net : String → Option FAResponse) (hour : Int)
    (st : HybridState) (icao24 : String) (ac : Aircraft) (cs : String)
    (hac : lookupA st.current_aircraft icao24 = some ac)
    (hcs : ac.opensky.callsign = some cs) (hne : cs ≠ "")
    (hq : can_process_flightaware_request cfg.quiet_start cfg.quiet_end hour = false) :
    enrich_with_flightaware cfg net hour st icao24 =
      ({ st with current_aircraft :=
          set_flightaware st.current_aircraft icao24 (some empty_fa) }, false) := by
  unfold enrich_with_flightaware
  simp only [hac, hcs]
  rw [if_neg hne, if_pos (by simp [hq])]

theorem enrich_neterr_eq (cfg : ApiConfig) (net : String → Option FAResponse) (hour : Int)
    (st : HybridState) (icao24 : String) (ac : Aircraft) (cs : String)
    (hac : lookupA st.current_aircraft icao24 = some ac)
    (hcs : ac.opensky.callsign = some cs) (hne : cs ≠ "")
    (hq : can_process_flightaware_request cfg.quiet_start cfg.quiet_end hour = true)
    (hcache : lookupA st.fa_cache (trimStr cs) = none)
    (hnet : net (trimStr cs) = none) :
    enrich_with_flightaware cfg net hour st icao24 =
      ({ st with current_aircraft :=
          set_flightaware st.current_aircraft icao24 (some empty_fa) }, true) := by
  unfold enrich_with_flightaware
  simp only [hac, hcs]
  rw [if_neg hne, if_neg (by simp [hq])]
  simp only [hcache, hnet, Option.isNone_none]

theorem enrich_non200_eq (cfg : ApiConfig) (net : String → Option FAResponse) (hour : Int)
    (st : HybridState) (icao24 : String) (ac : Aircraft) (cs : String) (resp : FAResponse)
    (hac : lookupA st.current_aircraft icao24 = some ac)
    (hcs : ac.opensky.callsign = some cs) (hne : cs ≠ "")
    (hq : can_process_flightaware_request cfg.quiet_start cfg.quiet_end hour = true)
    (hcache : lookupA st.fa_cache (trimStr cs) = none)
    (hnet : net (trimStr cs) = some resp)
    (hstatus : ¬ resp.status_code = 200) :
    enrich_with_flightaware cfg net hour st icao24 =
      ({ st with current_aircraft :=
          set_flightaware st.current_aircraft icao24 (some empty_fa) }, true) := by
  unfold enrich_with_flightaware
  simp only [hac, hcs]
  rw [if_neg hne, if_neg (by simp [hq])]
  simp only [hcache, hnet, Option.isNone_none]
  rw [if_pos hstatus]

theorem enrich_nodata_eq (cfg : ApiConfig) (net : String → Option FAResponse) (hour : Int)
    (st : HybridState) (icao24 : String) (ac : Aircraft) (cs : String) (resp : FAResponse)
    (hac : lookupA st.current_aircraft icao24 = some ac)
    (hcs : ac.opensky.callsign = some cs) (hne : cs ≠ "")
    (hq : can_process_flightaware_request cfg.quiet_start cfg.quiet_end hour = true)
    (hcache : lookupA st.fa_cache (trimStr cs) = none)
    (hnet : net (trimStr cs) = some resp)
    (hstatus : resp.status_code = 200)
    (hdata : resp.data = none) :
    enrich_with_flightaware cfg net hour st icao24 =
      ({ st with current_aircraft :=
          set_flightaware st.current_aircraft icao24 (some empty_fa) }, true) := by
  unfold enrich_with_flightaware
  simp only [hac, hcs]
  rw [if_neg hne, if_neg (by simp [hq])]
  simp only [hcache, hnet, Option.isNone_none, hdata]
  rw [if_neg (by simp [hstatus])]

theorem enrich_success_cache_eq (cfg : ApiConfig) (net : String → Option FAResponse)
    (hour : Int) (st : HybridState) (icao24 : String) (ac : Aircraft) (cs : String)
    (resp : FAResponse) (flights : List FAFlight)
    (hac : lookupA st.current_aircraft icao24 = some ac)
    (hcs : ac.opensky.callsign = some cs) (hne : cs ≠ "")
    (hq : can_process_flightaware_request cfg.quiet_start cfg.quiet_end hour = true)
    (hcache : lookupA st.fa_cache (trimStr cs) = none)
    (hnet : net (trimStr cs) = some resp)
    (hstatus : resp.status_code = 200)
    (hdata : resp.data = some flights)
    (hcc : can_cache_flightaware_request flights = true) :
    enrich_with_flightaware cfg net hour st icao24 =
      (HybridState.mk
        (set_flightaware (set_flightaware st.current_aircraft icao24 (some empty_fa))
          icao24 (some (fa_data_of (fa_selected_flight flights))))
        (st.fa_cache ++ [(trimStr cs, resp)])
        st.fa_queue, true) := by
  unfold enrich_with_flightaware
  simp only [hac, hcs]
  rw [if_neg hne, if_neg (by simp [hq])]
  simp only [hcache, hnet, Option.isNone_none, hdata, hcc]
  rw [if_neg (by simp [hstatus]), if_pos (by simp)]

theorem enrich_success_nocache_eq (cfg : ApiConfig) (net : String → Option FAResponse)
    (hour : Int) (st : HybridState) (icao24 : String) (ac : Aircraft) (cs : String)
    (resp : FAResponse) (flights : List FAFlight)
    (hac : lookupA st.current_aircraft icao24 = some ac)
    (hcs : ac.opensky.callsign = some cs) (hne : cs ≠ "")
    (hq : can_process_flightaware_request cfg.quiet_start cfg.quiet_end hour = true)
    (hcache : lookupA st.fa_cache (trimStr cs) = none)
    (hnet : net (trimStr cs) = some resp)
    (hstatus : resp.status_code = 200)
    (hdata : resp.data = some flights)
    (hcc : can_cache_flightaware_request flights = false) :
    enrich_with_flightaware cfg net hour st icao24 =
      (HybridState.mk
        (set_flightaware (set_flightaware st.current_aircraft icao24 (some empty_fa))
          icao24 (some (fa_data_of (fa_selected_flight flights))))
        st.fa_cache
        st.fa_queue, true) := by
  unfold enrich_with_flightaware
  simp only [hac, hcs]
  rw [if_neg hne, if_neg (by simp [hq])]
  simp only [hcache, hnet, Option.isNone_none, hdata, hcc]
  rw [if_neg (by simp [hstatus]), if_neg (by simp)]

theorem enrich_cachehit_requested (cfg : ApiConfig) (net : String → Option FAResponse)
    (hour : Int) (st : HybridState) (icao24 : String) (ac : Aircraft) (cs : String)
    (resp : FAResponse)
    (hac : lookupA st.current_aircraft icao24 = some ac)
    (hcs : ac.opensky.callsign = some cs) (hne : cs ≠ "")
    (hq : can_process_flightaware_request cfg.quiet_start cfg.quiet_end hour = true)
    (hcache : lookupA st.fa_cache (trimStr cs) = some resp) :
    (enrich_with_flightaware cfg net hour st icao24).2 = false := by
  unfold enrich_with_flightaware
  simp only [hac, hcs]
  rw [if_neg hne, if_neg (by simp [hq])]
  simp only [hcache, Option.isNone_some]
  by_cases hst : resp.status_code = 200
  · rw [if_neg (by simp [hst])]
    cases hd : resp.data with
    | none => simp [hd]
    | some flights => simp only [hd]
  · rw [if_pos hst]

theorem enrich_cachehit_non200_eq (cfg : ApiConfig) (net : String → Option FAResponse)
    (hour : Int) (st : HybridState) (icao24 : String) (ac : Aircraft) (cs : String)
    (resp : FAResponse)
    (hac : lookupA st.current_aircraft icao24 = some ac)
    (hcs : ac.opensky.callsign = some cs) (hne : cs ≠ "")
    (hq : can_process_flightaware_request cfg.quiet_start cfg.quiet_end hour = true)
    (hcache : lookupA st.fa_cache (trimStr cs) = some resp)
    (hstatus : ¬ resp.status_code = 200) :
    enrich_with_flightaware cfg net hour st icao24 =
      ({ st with current_aircraft :=
          set_flightaware st.current_aircraft icao24 (some empty_fa) }, false) := by
  unfold enrich_with_flightaware
  simp only [hac, hcs]
  rw [if_neg hne, if_neg (by simp [hq])]
  simp only [hcache, Option.isNone_some]
  rw [if_pos hstatus]

theorem enrich_cachehit_nodata_eq (cfg : ApiConfig) (net : String → Option FAResponse)
    (hour : Int) (st : HybridState) (icao24 : String) (ac : Aircraft) (cs : String)
    (resp : FAResponse)
    (hac : lookupA st.current_aircraft icao24 = some ac)
    (hcs : ac.opensky.callsign = some cs) (hne : cs ≠ "")
    (hq : can_process_flightaware_request cfg.quiet_start cfg.quiet_end hour = true)
    (hcache : lookupA st.fa_cache (trimStr cs) = some resp)
    (hstatus : resp.status_code = 200)
    (hdata : resp.data = none) :
    enrich_with_flightaware cfg net hour st icao24 =
      ({ st with current_aircraft :=
          set_flightaware st.current_aircraft icao24 (some empty_fa) }, false) := by
  unfold enrich_with_flightaware
  simp only [hac, hcs]
  rw [if_neg hne, if_neg (by simp [hq])]
  simp only [hcache, Option.isNone_some, hdata]
  rw [if_neg (by simp [hstatus])]

theorem enrich_cachehit_success_eq (cfg : ApiConfig) (net : String → Option FAResponse)
    (hour : Int) (st : HybridState) (icao24 : String) (ac : Aircraft) (cs : String)
    (resp : FAResponse) (flights : List FAFlight)
    (hac : lookupA st.current_aircraft icao24 = some ac)
    (hcs : ac.opensky.callsign = some cs) (hne : cs ≠ "")
    (hq : can_process_flightaware_request cfg.quiet_start cfg.quiet_end hour = true)
    (hcache : lookupA st.fa_cache (trimStr cs) = some resp)
    (hstatus : resp.status_code = 200)
    (hdata : resp.data = some flights) :
    enrich_with_flightaware cfg net hour st icao24 =
      (HybridState.mk
        (set_flightaware (set_flightaware st.current_aircraft icao24 (some empty_fa))
          icao24 (some (fa_data_of (fa_selected_flight flights))))
        st.fa_cache
        st.fa_queue, false) := by
  unfold enrich_with_flightaware
  simp only [hac, hcs]
  rw [if_neg hne, if_neg (by simp [hq])]
  simp only [hcache, Option.isNone_some, hdata]
  rw [if_neg (by simp [hstatus]), if_neg (by simp)]

/-- C7: for an id whose record exists with a non-blank callsign, the
enrichment client leaves the record with a non-`None` `FlightAwareData` in
every outcome (the all-empty marker is written before any network I/O); if
quiet hours are in effect no network request is issued and the record holds
exactly the empty marker; and (on a cache miss) a transport error or a
non-200 response likewise leaves the record enriched-but-empty, so the id is
never retried. -/
theorem claim_C7_enrich_marker (cfg : ApiConfig) (net : String → Option FAResponse)
    (hour : Int) (st : HybridState) (icao24 : String) (ac : Aircraft) (cs : String)
    (hac : lookupA st.current_aircraft icao24 = some ac)
    (hcs : ac.opensky.callsign = some cs) (hne : cs ≠ "") :
    (∃ r', lookupA (enrich_with_flightaware cfg net hour st icao24).1.current_aircraft
        icao24 = some r' ∧ r'.flightaware.isSome) ∧
    (can_process_flightaware_request cfg.quiet_start cfg.quiet_end hour = false →
      (enrich_with_flightaware cfg net hour st icao24).2 = false ∧
      lookupA (enrich_with_flightaware cfg net hour st icao24).1.current_aircraft icao24 =
        some { ac with flightaware := some empty_fa }) ∧
    (can_process_flightaware_request cfg.quiet_start cfg.quiet_end hour = true →
      lookupA st.fa_cache (trimStr cs) = none →
      (net (trimStr cs) = none →
        lookupA (enrich_with_flightaware cfg net hour st icao24).1.current_aircraft icao24 =
          some { ac with flightaware := some empty_fa }) ∧
      (∀ resp : FAResponse, net (trimStr cs) = some resp → ¬ resp.status_code = 200 →
        lookupA (enrich_with_flightaware cfg net hour st icao24).1.current_aircraft icao24 =
          some { ac with flightaware := some empty_fa })) := by
  have hmark : lookupA (set_flightaware st.current_aircraft icao24 (some empty_fa)) icao24 =
      some { ac with flightaware := some empty_fa } :=
    set_flightaware_lookup _ _ _ _ hac
  have hmark2 : ∀ v : FlightAwareData,
      lookupA (set_flightaware (set_flightaware st.current_aircraft icao24 (some empty_fa))
        icao24 (some v)) icao24 = some { ac with flightaware := some v } := fun v =>
    set_flightaware_lookup _ icao24 (some v) { ac with flightaware := some empty_fa } hmark
  refine ⟨?_, ?_, ?_⟩
  · cases hq : can_process_flightaware_request cfg.quiet_start cfg.quiet_end hour with
    | false =>
      rw [enrich_quiet_eq cfg net hour st icao24 ac cs hac hcs hne hq]
      exact ⟨_, hmark, rfl⟩
    | true =>
      cases hcache : lookupA st.fa_cache (trimStr cs) with
      | none =>
        cases hnet : net (trimStr cs) with
        | none =>
          rw [enrich_neterr_eq cfg net hour st icao24 ac cs hac hcs hne hq hcache hnet]
          exact ⟨_, hmark, rfl⟩
        | some resp =>
          by_cases hst : resp.status_code = 200
          · cases hdata : resp.data with
            | none =>
              rw [enrich_nodata_eq cfg net hour st icao24 ac cs resp hac hcs hne hq hcache
                hnet hst hdata]
              exact ⟨_, hmark, rfl⟩
            | some flights =>
              cases hcc : can_cache_flightaware_request flights with
              | true =>
                rw [enrich_success_cache_eq cfg net hour st icao24 ac cs resp flights hac
                  hcs hne hq hcache hnet hst hdata hcc]
                exact ⟨_, hmark2 _, rfl⟩
              | false =>
                rw [enrich_success_nocache_eq cfg net hour st icao24 ac cs resp flights hac
                  hcs hne hq hcache hnet hst hdata hcc]
                exact ⟨_, hmark2 _, rfl⟩
          · rw [enrich_non200_eq cfg net hour st icao24 ac cs resp hac hcs hne hq hcache
              hnet hst]
            exact ⟨_, hmark, rfl⟩
      | some resp =>
        by_cases hst : resp.status_code = 200
        · cases hdata : resp.data with
          | none =>
            rw [enrich_cachehit_nodata_eq cfg net hour st icao24 ac cs resp hac hcs hne hq
              hcache hst hdata]
            exact ⟨_, hmark, rfl⟩
          | some flights =>
            rw [enrich_cachehit_success_eq cfg net hour st icao24 ac cs resp flights hac hcs
              hne hq hcache hst hdata]
            exact ⟨_, hmark2 _, rfl⟩
        · rw [enrich_cachehit_non200_eq cfg net hour st icao24 ac cs resp hac hcs hne hq
            hcache hst]
          exact ⟨_, hmark, rfl⟩
  · intro hq
    rw [enrich_quiet_eq cfg net hour st icao24 ac cs hac hcs hne hq]
    exact ⟨rfl, hmark⟩
  · intro hq hcache
    constructor
    · intro hnet
      rw [enrich_neterr_eq cfg net hour st icao24 ac cs hac hcs hne hq hcache hnet]
      exact hmark
    · intro resp hnet hstatus
      rw [enrich_non200_eq cfg net hour st icao24 ac cs resp hac hcs hne hq hcache hnet
        hstatus]
      exact hmark

/-- Tracked aircraft for the C7 witness (callsign `"UAL7 "`). -/
def c7_ac : Aircraft := { opensky := { icao24 := "abc007", callsign := some "UAL7 " } }

/-- Store for the C7 witness. -/
def c7_st : HybridState := { current_aircraft := [("abc007", c7_ac)] }

/-- Network oracle for the C7 witness: every request is a transport error. -/
def c7_net : String → Option FAResponse := fun _ => none

/-- Witness for C7 at concrete inputs. -/
theorem claim_C7_witness :
    (∃ r', lookupA (enrich_with_flightaware {} c7_net 12 c7_st "abc007").1.current_aircraft
        "abc007" = some r' ∧ r'.flightaware.isSome) ∧
    (can_process_flightaware_request ({} : ApiConfig).quiet_start
        ({} : ApiConfig).quiet_end 12 = false →
      (enrich_with_flightaware {} c7_net 12 c7_st "abc007").2 = false ∧
      lookupA (enrich_with_flightaware {} c7_net 12 c7_st "abc007").1.current_aircraft
        "abc007" = some { c7_ac with flightaware := some empty_fa }) ∧
    (can_process_flightaware_request ({} : ApiConfig).quiet_start
        ({} : ApiConfig).quiet_end 12 = true →
      lookupA c7_st.fa_cache (trimStr "UAL7 ") = none →
      (c7_net (trimStr "UAL7 ") = none →
        lookupA (enrich_with_flightaware {} c7_net 12 c7_st "abc007").1.current_aircraft
          "abc007" = some { c7_ac with flightaware := some empty_fa }) ∧
      (∀ resp : FAResponse, c7_net (trimStr "UAL7 ") = some resp →
        ¬ resp.status_code = 200 →
        lookupA (enrich_with_flightaware {} c7_net 12 c7_st "abc007").1.current_aircraft
          "abc007" = some { c7_ac with flightaware := some empty_fa })) :=
  claim_C7_enrich_marker {} c7_net 12 c7_st "abc007" c7_ac "UAL7 " (by decide) (by decide)
    (by decide)

/-- A leg whose components contain a dot, colliding under the joined key. -/
def c8_dot1 : FAFlight := { origin_code_iata := some "A.B", destination_code_iata := some "C" }

/-- A different leg with the same joined key. -/
def c8_dot2 : FAFlight := { origin_code_iata := some "A", destination_code_iata := some "B.C" }

/-- C8 counterexample: the response is admitted to the cache NOT exactly when
every leg carries an identical (origin, destination, aircraft-type) tuple —
an empty response (vacuously identical tuples) is rejected, and two legs
with distinct tuples whose `"."`-joined key strings collide are admitted. -/
theorem claim_C8_counterexample :
    (can_cache_flightaware_request [] = false ∧
      ∀ f ∈ ([] : List FAFlight), ∀ g ∈ ([] : List FAFlight),
        parse_fa_components f (some "") = parse_fa_components g (some "")) ∧
    (can_cache_flightaware_request [c8_dot1, c8_dot2] = true ∧
      ¬ parse_fa_components c8_dot1 (some "") = parse_fa_components c8_dot2 (some "")) := by
  refine ⟨⟨by decide, ?_⟩, by decide, by decide⟩
  intro f hf
  exact absurd hf (List.not_mem_nil f)

/-- C8 amended: a response is admitted to the callsign-keyed cache iff it
has at least one leg and every leg's `"."`-joined (origin, destination,
aircraft-type) key (missing components as empty strings) equals the first
leg's; consequently for a callsign whose legs all share an identical
component tuple, a successful lookup is cached and any second `enrich` call
for an aircraft with the same trimmed callsign issues no network request. -/
theorem claim_C8_amended :
    (∀ flights : List FAFlight,
      (can_cache_flightaware_request flights = true ↔
        ∃ f0 rest, flights = f0 :: rest ∧
          ∀ f ∈ flights, fa_component_key f = fa_component_key f0)) ∧
    (∀ (cfg : ApiConfig) (net : String → Option FAResponse) (hour : Int) (st : HybridState)
        (icao24 : String) (ac : Aircraft) (cs : String) (resp : FAResponse) (f0 : FAFlight)
        (rest : List FAFlight),
      lookupA st.current_aircraft icao24 = some ac →
      ac.opensky.callsign = some cs → cs ≠ "" →
      can_process_flightaware_request cfg.quiet_start cfg.quiet_end hour = true →
      lookupA st.fa_cache (trimStr cs) = none →
      net (trimStr cs) = some resp →
      resp.status_code = 200 →
      resp.data = some (f0 :: rest) →
      (∀ f ∈ f0 :: rest,
        parse_fa_components f (some "") = parse_fa_components f0 (some "")) →
      (lookupA (enrich_with_flightaware cfg net hour st icao24).1.fa_cache (trimStr cs) =
          some resp ∧
        ∀ (icao2 : String) (ac2 : Aircraft) (cs2 : String),
          lookupA (enrich_with_flightaware cfg net hour st icao24).1.current_aircraft
            icao2 = some ac2 →
          ac2.opensky.callsign = some cs2 → cs2 ≠ "" → trimStr cs2 = trimStr cs →
          (enrich_with_flightaware cfg net hour
            (enrich_with_flightaware cfg net hour st icao24).1 icao2).2 = false)) := by
  constructor
  · exact can_cache_iff
  · intro cfg net hour st icao24 ac cs resp f0 rest hac hcs hne hq hcache hnet hst hdata htup
    have hcc : can_cache_flightaware_request (f0 :: rest) = true :=
      (can_cache_iff _).mpr ⟨f0, rest, rfl, fun f hf => fa_key_congr _ _ (htup f hf)⟩
    rw [enrich_success_cache_eq cfg net hour st icao24 ac cs resp (f0 :: rest) hac hcs hne
      hq hcache hnet hst hdata hcc]
    have hcachehit : lookupA (st.fa_cache ++ [(trimStr cs, resp)]) (trimStr cs) =
        some resp := by
      rw [lookupA_append, hcache, lookupA_cons, if_pos rfl]
    constructor
    · exact hcachehit
    · intro icao2 ac2 cs2 hac2 hcs2 hne2 htrim
      apply enrich_cachehit_requested cfg net hour _ icao2 ac2 cs2 resp hac2 hcs2 hne2 hq
      rw [htrim]
      exact hcachehit

/-- Leg with one fixed route for the C8 witness. -/
def c8_leg : FAFlight :=
  { origin_code_iata := some "PDX", destination_code_iata := some "SFO",
    aircraft_type := some "B738", status := some "En Route" }

/-- Successful response of two identical-route legs for the C8 witness. -/
def c8_resp : FAResponse := { status_code := 200, data := some [c8_leg, c8_leg] }

/-- Network oracle for the C8 witness. -/
def c8_net : String → Option FAResponse := fun _ => some c8_resp

/-- Tracked aircraft for the C8 witness (callsign `"UAL8 "`). -/
def c8_ac : Aircraft := { opensky := { icao24 := "abc008", callsign := some "UAL8 " } }

/-- Store for the C8 witness. -/
def c8_st : HybridState := { current_aircraft := [("abc008", c8_ac)] }

/-- Enrichment attached by the C8 witness's first call. -/
def c8_fa : FlightAwareData :=
  { aircraft_type := some "B738", origin_airport := some "PDX",
    destination_airport := some "SFO" }

/-- The C8 witness aircraft after the first enrich call. -/
def c8_ac2 : Aircraft := { opensky := c8_ac.opensky, flightaware := some c8_fa }

/-- Witness for the amended C8 at concrete inputs: the response is cached
under the trimmed callsign, and a second enrich call for the same callsign
issues no network request. -/
theorem claim_C8_witness :
    lookupA (enrich_with_flightaware {} c8_net 12 c8_st "abc008").1.fa_cache
        (trimStr "UAL8 ") = some c8_resp ∧
    (enrich_with_flightaware {} c8_net 12
      (enrich_with_flightaware {} c8_net 12 c8_st "abc008").1 "abc008").2 = false :=
  have h := claim_C8_amended.2 {} c8_net 12 c8_st "abc008" c8_ac "UAL8 " c8_resp c8_leg
    [c8_leg] (by decide) (by decide) (by decide) (by decide) (by decide) (by decide)
    (by decide) (by decide) (by decide)
  ⟨h.1, h.2 "abc008" c8_ac2 "UAL8 " (by decide) (by decide) (by decide) (by decide)⟩

end AdsBby
